import Mathlib

/-! SceneManager.cpp: texture slots, materials, transforms and the scene script.

A shallow embedding of `Source/SceneManager.cpp`.  The class `SceneManager` becomes a record
that is passed explicitly; every member function becomes a function on that record.  The
collaborators the class talks to (the shader uniform sink, the mesh library, the image
decoder and the GL texture state) are not part of the source file; they are modelled by the
small records below, as narrow as the calls the source makes on them.

Undefined behaviour of the C++ (a write behind the end of the slot array, a call through a
null shader-manager pointer) is made explicit as a `Fault`.
-/

/-! ## Scalars, vectors, matrices -/

/-- A `float` value.  Every finite float is a rational number; a literal of the source is
read as the decimal it is written as. -/
abbrev float := ℚ

/-- The type `glm::vec2`. -/
structure vec2 where
  x : float
  y : float
deriving DecidableEq

/-- The type `glm::vec3`. -/
structure vec3 where
  x : float
  y : float
  z : float
deriving DecidableEq

/-- The type `glm::vec4` (`r`, `g`, `b`, `a` components). -/
structure vec4 where
  r : float
  g : float
  b : float
  a : float
deriving DecidableEq

/-- The functions of the glm library that `SetTransformations` calls, over an abstract type
`mat4` of 4x4 matrices: the matrix product and the builders `glm::scale`, `glm::rotate`
(angle in radians, axis), `glm::translate`, and `glm::radians`. -/
structure GLM (mat4 : Type) where
  mul : mat4 → mat4 → mat4
  scale : vec3 → mat4
  rotate : float → vec3 → mat4
  translate : vec3 → mat4
  radians : float → float

/-- Symbolic matrix expressions: the builders and the product as constructors, nothing
identified.  Used to run the model on concrete inputs. -/
inductive MatExpr where
  | scale (v : vec3)
  | rotate (angle : float) (axis : vec3)
  | translate (v : vec3)
  | mul (a b : MatExpr)
deriving DecidableEq

/-- The glm functions read symbolically; `radians` multiplies by the constant glm uses. -/
def MatExpr.glm : GLM MatExpr where
  mul := MatExpr.mul
  scale := MatExpr.scale
  rotate := MatExpr.rotate
  translate := MatExpr.translate
  radians := fun degrees => degrees * 0.01745329251994329576923690768489

/-! ## The shader uniform sink -/

/-- A value written to a uniform, tagged by the setter that wrote it. -/
inductive UniformValue (mat4 : Type) where
  | int (v : Int)
  | bool (v : Bool)
  | float (v : float)
  | vec2 (v : vec2)
  | vec3 (v : vec3)
  | vec4 (v : vec4)
  | mat4 (m : mat4)
  | sampler2D (v : Int)
deriving DecidableEq

/-- Modelled from the spec: class `ShaderManager` (declared outside `SceneManager.cpp`), the
shader uniform sink.  It accepts named uniform writes by string name; every setter is
last-write-wins and a draw reads whatever is currently set.  The record keeps the writes,
newest first. -/
structure ShaderManager (mat4 : Type) where
  writes : List (String × UniformValue mat4)
deriving DecidableEq

namespace ShaderManager

variable {mat4 : Type}

/-- The write of one named uniform. -/
def set (sh : ShaderManager mat4) (name : String) (v : UniformValue mat4) : ShaderManager mat4 :=
  { writes := (name, v) :: sh.writes }

/-- The current value of a named uniform: the newest write under that name. -/
def uniform (sh : ShaderManager mat4) (name : String) : Option (UniformValue mat4) :=
  (sh.writes.find? (fun w => decide (w.1 = name))).map Prod.snd

def setMat4Value (sh : ShaderManager mat4) (name : String) (m : mat4) : ShaderManager mat4 :=
  sh.set name (.mat4 m)

def setIntValue (sh : ShaderManager mat4) (name : String) (v : Int) : ShaderManager mat4 :=
  sh.set name (.int v)

def setBoolValue (sh : ShaderManager mat4) (name : String) (v : Bool) : ShaderManager mat4 :=
  sh.set name (.bool v)

def setFloatValue (sh : ShaderManager mat4) (name : String) (v : float) : ShaderManager mat4 :=
  sh.set name (.float v)

def setVec2Value (sh : ShaderManager mat4) (name : String) (v : vec2) : ShaderManager mat4 :=
  sh.set name (.vec2 v)

def setVec3Value (sh : ShaderManager mat4) (name : String) (v : vec3) : ShaderManager mat4 :=
  sh.set name (.vec3 v)

def setVec4Value (sh : ShaderManager mat4) (name : String) (v : vec4) : ShaderManager mat4 :=
  sh.set name (.vec4 v)

def setSampler2DValue (sh : ShaderManager mat4) (name : String) (v : Int) : ShaderManager mat4 :=
  sh.set name (.sampler2D v)

end ShaderManager

/-! ## The mesh library, the image decoder and the GL texture state -/

/-- The primitive meshes of class `ShapeMeshes`. -/
inductive Shape where
  | Plane
  | TaperedCylinder
  | Torus
  | Cylinder
  | Box
  | Prism
  | Sphere
  | Pyramid4
deriving DecidableEq

/-- Modelled from the spec: class `ShapeMeshes` (declared outside `SceneManager.cpp`), the
mesh library: `Load<Shape>Mesh()` uploads a shape, `Draw<Shape>Mesh()` issues a draw of it.
The record keeps both call sequences, oldest first. -/
structure ShapeMeshes where
  loaded : List Shape
  drawn : List Shape
deriving DecidableEq

/-- What `stbi_load` writes through its out-parameters for a decoded image. -/
structure Image where
  width : Int
  height : Int
  colorChannels : Int
deriving DecidableEq

/-- The part of the GL context that `SceneManager.cpp` changes and that is observed here:
how many texture names `glGenTextures` has handed out, the active texture unit (relative to
`GL_TEXTURE0`), and the `glBindTexture(GL_TEXTURE_2D, _)` calls as (unit, texture) pairs,
newest first.  The contents of a texture object (wrap and filter parameters, pixels,
mipmaps) are not observed by any function of the file and are left out. -/
structure GLState where
  genCount : Nat
  activeTexture : Nat
  bindings : List (Nat × Nat)
deriving DecidableEq

namespace GLState

/-- The call `glActiveTexture(GL_TEXTURE0 + i)`. -/
def glActiveTexture (gl : GLState) (i : Nat) : GLState :=
  { gl with activeTexture := i }

/-- The call `glBindTexture(GL_TEXTURE_2D, id)`: binds on the active unit. -/
def glBindTexture (gl : GLState) (id : Nat) : GLState :=
  { gl with bindings := (gl.activeTexture, id) :: gl.bindings }

/-- The texture bound to `GL_TEXTURE_2D` on a unit (0 when none was bound). -/
def boundTexture (gl : GLState) (unit : Nat) : Nat :=
  ((gl.bindings.find? (fun b => decide (b.1 = unit))).map Prod.snd).getD 0

end GLState

/-! ## The data of `SceneManager` -/

/-- Modelled from the spec: the record `TEXTURE_INFO`, declared in `SceneManager.h`: a GPU
texture handle and its tag.  The handle is a `GLuint` (`CreateGLTexture` assigns one to it);
the slot index of an entry is its position in `m_textureIDs`. -/
structure TEXTURE_INFO where
  ID : Nat
  tag : String
deriving DecidableEq

instance : Inhabited TEXTURE_INFO := ⟨⟨0, ""⟩⟩

/-- Modelled from the spec: the record `OBJECT_MATERIAL`, declared in `SceneManager.h`: tag,
ambient color and strength, diffuse color, specular color, shininess. -/
structure OBJECT_MATERIAL where
  ambientColor : vec3
  ambientStrength : float
  diffuseColor : vec3
  specularColor : vec3
  shininess : float
  tag : String
deriving DecidableEq

/-- What the outside world answers: the decode result of `stbi_load` for a file name
(`none` for a null pointer), the texture name that the k-th `glGenTextures(1, _)` call
returns, and the indeterminate contents that the shading fields of an uninitialised local
`OBJECT_MATERIAL` hold. -/
structure Env where
  stbi_load : String → Option Image
  glGenTextures : Nat → Nat
  uninitMaterial : OBJECT_MATERIAL

/-- Modelled from the spec: the number of entries of the array `m_textureIDs`, declared in
`SceneManager.h`; the table has a bounded capacity of 16 slots ("There are up to 16 slots" in
the comment of `BindGLTextures`). -/
def MAX_TEXTURES : Nat := 16

/-- Modelled from the spec: the members of class `SceneManager`, declared in
`SceneManager.h`, together with the GL context the object works on.  `m_pShaderManager` is a
pointer that may be `NULL` (the pointee is held in place); `m_textureIDs` is a fixed array,
held as the list of its entries; `m_loadedTextures` is an `int` that starts at 0 and is only
incremented, held as a natural number. -/
structure SceneManager (mat4 : Type) where
  m_pShaderManager : Option (ShaderManager mat4)
  m_basicMeshes : ShapeMeshes
  m_loadedTextures : Nat
  m_textureIDs : List TEXTURE_INFO
  m_objectMaterials : List OBJECT_MATERIAL
  gl : GLState
deriving DecidableEq

/-- The ways a call leaves defined behaviour. -/
inductive Fault where
  | textureSlotOutOfRange
  | nullShaderManager
deriving DecidableEq

deriving instance DecidableEq for Except

def g_ModelName : String := "model"
def g_ColorValueName : String := "objectColor"
def g_TextureValueName : String := "objectTexture"
def g_UseTextureName : String := "bUseTexture"
def g_UseLightingName : String := "bUseLighting"

/-- The conversion of a `GLuint` to `int` (32 bits, two's complement). -/
def intOfGLuint (u : Nat) : Int :=
  if u % 2 ^ 32 < 2 ^ 31 then ((u % 2 ^ 32 : Nat) : Int) else ((u % 2 ^ 32 : Nat) : Int) - 2 ^ 32

namespace SceneManager

variable {mat4 : Type}

/-- A freshly constructed manager: no texture loaded, no material defined, the slot array
at its full size.  The contents of the slots are arbitrary. -/
def Fresh (s : SceneManager mat4) : Prop :=
  s.m_loadedTextures = 0 ∧ s.m_textureIDs.length = MAX_TEXTURES ∧ s.m_objectMaterials = []

instance (s : SceneManager mat4) : Decidable (Fresh s) := by
  unfold Fresh; infer_instance

/-! ## Texture slot table -/

/-- `CreateGLTexture(filename, tag)`.  Returns the `bool` of the source and the new state;
the write `m_textureIDs[m_loadedTextures]` behind the end of the array is a fault. -/
def CreateGLTexture (env : Env) (filename : String) (tag : String) (s : SceneManager mat4) :
    Except Fault (Bool × SceneManager mat4) :=
  match env.stbi_load filename with
  | some image =>
    -- glGenTextures(1, &textureID); glBindTexture(GL_TEXTURE_2D, textureID);
    let textureID := env.glGenTextures s.gl.genCount
    let gl := ({ s.gl with genCount := s.gl.genCount + 1 } : GLState).glBindTexture textureID
    -- glTexParameteri (wrap, filter); then glTexImage2D as GL_RGB8 for 3 channels, as
    -- GL_RGBA8 for 4 channels; any other channel count returns false
    if image.colorChannels = 3 ∨ image.colorChannels = 4 then
      -- glGenerateMipmap, stbi_image_free, glBindTexture(GL_TEXTURE_2D, 0)
      let gl := gl.glBindTexture 0
      if s.m_loadedTextures < s.m_textureIDs.length then
        .ok (true,
          { s with
            m_textureIDs := s.m_textureIDs.set s.m_loadedTextures { ID := textureID, tag := tag }
            m_loadedTextures := s.m_loadedTextures + 1
            gl := gl })
      else
        .error Fault.textureSlotOutOfRange
    else
      .ok (false, { s with gl := gl })
  | none => .ok (false, s)

/-- The loop of `BindGLTextures`, from index `i`, for `n` more iterations. -/
def BindGLTextures.loop (ids : List TEXTURE_INFO) : Nat → Nat → GLState → GLState
  | 0, _, gl => gl
  | n + 1, i, gl =>
    BindGLTextures.loop ids n (i + 1) ((gl.glActiveTexture i).glBindTexture (ids.getD i default).ID)

/-- `BindGLTextures()`. -/
def BindGLTextures (s : SceneManager mat4) : SceneManager mat4 :=
  { s with gl := BindGLTextures.loop s.m_textureIDs s.m_loadedTextures 0 s.gl }

/-- The loop of `FindTextureID`: `n` is `m_loadedTextures - index`; a match sets the result
and `bFound`, which ends the loop.  The read `m_textureIDs[index]` is in range whenever
`m_loadedTextures` is at most the size of the array. -/
def FindTextureID.loop (ids : List TEXTURE_INFO) (tag : String) : Nat → Nat → Int
  | 0, _ => -1
  | n + 1, index =>
    if (ids.getD index default).tag = tag then intOfGLuint (ids.getD index default).ID
    else FindTextureID.loop ids tag n (index + 1)

/-- `FindTextureID(tag)`. -/
def FindTextureID (s : SceneManager mat4) (tag : String) : Int :=
  FindTextureID.loop s.m_textureIDs tag s.m_loadedTextures 0

/-- The loop of `FindTextureSlot`: `n` is `m_loadedTextures - index`. -/
def FindTextureSlot.loop (ids : List TEXTURE_INFO) (tag : String) : Nat → Nat → Int
  | 0, _ => -1
  | n + 1, index =>
    if (ids.getD index default).tag = tag then (index : Int)
    else FindTextureSlot.loop ids tag n (index + 1)

/-- `FindTextureSlot(tag)`. -/
def FindTextureSlot (s : SceneManager mat4) (tag : String) : Int :=
  FindTextureSlot.loop s.m_textureIDs tag s.m_loadedTextures 0

/-! ## Material table -/

/-- The loop of `FindMaterial` over the entries from `index` on: the first entry with the
tag has its five shading fields copied into `material`. -/
def FindMaterial.loop (tag : String) : List OBJECT_MATERIAL → OBJECT_MATERIAL → OBJECT_MATERIAL
  | [], material => material
  | m :: rest, material =>
    if m.tag = tag then
      { material with
        ambientColor := m.ambientColor
        ambientStrength := m.ambientStrength
        diffuseColor := m.diffuseColor
        specularColor := m.specularColor
        shininess := m.shininess }
    else FindMaterial.loop tag rest material

/-- `FindMaterial(tag, material)`: the returned `bool` and the reference parameter after
the call. -/
def FindMaterial (s : SceneManager mat4) (tag : String) (material : OBJECT_MATERIAL) :
    Bool × OBJECT_MATERIAL :=
  if s.m_objectMaterials.length = 0 then (false, material)
  else (true, FindMaterial.loop tag s.m_objectMaterials material)

/-! ## Transform and shading state setters -/

/-- `SetTransformations(scaleXYZ, XrotationDegrees, YrotationDegrees, ZrotationDegrees,
positionXYZ)`. -/
def SetTransformations (glm : GLM mat4) (scaleXYZ : vec3)
    (XrotationDegrees YrotationDegrees ZrotationDegrees : float) (positionXYZ : vec3)
    (s : SceneManager mat4) : SceneManager mat4 :=
  let scale := glm.scale scaleXYZ
  let rotationX := glm.rotate (glm.radians XrotationDegrees) ⟨1, 0, 0⟩
  let rotationY := glm.rotate (glm.radians YrotationDegrees) ⟨0, 1, 0⟩
  let rotationZ := glm.rotate (glm.radians ZrotationDegrees) ⟨0, 0, 1⟩
  let translation := glm.translate positionXYZ
  let modelView :=
    glm.mul (glm.mul (glm.mul (glm.mul translation rotationX) rotationY) rotationZ) scale
  match s.m_pShaderManager with
  | some sh => { s with m_pShaderManager := some (sh.setMat4Value g_ModelName modelView) }
  | none => s

/-- `SetShaderColor(redColorValue, greenColorValue, blueColorValue, alphaValue)`. -/
def SetShaderColor (redColorValue greenColorValue blueColorValue alphaValue : float)
    (s : SceneManager mat4) : SceneManager mat4 :=
  let currentColor : vec4 :=
    { r := redColorValue, g := greenColorValue, b := blueColorValue, a := alphaValue }
  match s.m_pShaderManager with
  | some sh =>
    { s with
      m_pShaderManager :=
        some ((sh.setIntValue g_UseTextureName 0).setVec4Value g_ColorValueName currentColor) }
  | none => s

/-- `SetShaderTexture(textureTag)`; `true` is passed to `setIntValue` as the int 1. -/
def SetShaderTexture (textureTag : String) (s : SceneManager mat4) : SceneManager mat4 :=
  match s.m_pShaderManager with
  | some sh =>
    let sh := sh.setIntValue g_UseTextureName 1
    let textureID := FindTextureSlot s textureTag
    { s with m_pShaderManager := some (sh.setSampler2DValue g_TextureValueName textureID) }
  | none => s

/-- `SetTextureUVScale(u, v)`. -/
def SetTextureUVScale (u v : float) (s : SceneManager mat4) : SceneManager mat4 :=
  match s.m_pShaderManager with
  | some sh => { s with m_pShaderManager := some (sh.setVec2Value "UVscale" { x := u, y := v }) }
  | none => s

/-- `SetShaderMaterial(materialTag)`.  The local `material` is not initialised (its `tag`
is the empty string); `m_pShaderManager` is used without a null check. -/
def SetShaderMaterial (env : Env) (materialTag : String) (s : SceneManager mat4) :
    Except Fault (SceneManager mat4) :=
  if s.m_objectMaterials.length > 0 then
    let material : OBJECT_MATERIAL := { env.uninitMaterial with tag := "" }
    let r := FindMaterial s materialTag material
    let bReturn := r.1
    let material := r.2
    if bReturn = true then
      match s.m_pShaderManager with
      | none => .error Fault.nullShaderManager
      | some sh =>
        let sh := sh.setVec3Value "material.ambientColor" material.ambientColor
        let sh := sh.setFloatValue "material.ambientStrength" material.ambientStrength
        let sh := sh.setVec3Value "material.diffuseColor" material.diffuseColor
        let sh := sh.setVec3Value "material.specularColor" material.specularColor
        let sh := sh.setFloatValue "material.shininess" material.shininess
        .ok { s with m_pShaderManager := some sh }
    else .ok s
  else .ok s

/-! ## Scene preparation -/

/-- `CreateSceneTextures()`: five loads, their results ignored, then `BindGLTextures()`. -/
def CreateSceneTextures (env : Env) (s : SceneManager mat4) : Except Fault (SceneManager mat4) := do
  let r ← CreateGLTexture env "textures/wood.jpg" "WoodFloor" s
  let r ← CreateGLTexture env "textures/aluminum.jpg" "Aluminum" r.2
  let r ← CreateGLTexture env "textures/egyptian-bricks.jpg" "Pyramid" r.2
  let r ← CreateGLTexture env "textures/orange.jpg" "Orange" r.2
  let r ← CreateGLTexture env "textures/dirt.jpg" "Dirt" r.2
  pure (BindGLTextures r.2)

/-- The uniform writes of `SetupSceneLights()`, in source order. -/
def SetupSceneLights.writes (sh : ShaderManager mat4) : ShaderManager mat4 :=
  -- back left light
  let sh := sh.setVec3Value "lightSources[0].position" ⟨-50.0, 20.0, -60.0⟩
  let sh := sh.setVec3Value "lightSources[0].ambientColor" ⟨0.07, 0.07, 0.07⟩
  let sh := sh.setVec3Value "lightSources[0].diffuseColor" ⟨1.0, 1.0, 1.0⟩
  let sh := sh.setVec3Value "lightSources[0].specularColor" ⟨1.0, 1.0, 1.0⟩
  let sh := sh.setFloatValue "lightSources[0].focalStrength" 100.0
  let sh := sh.setFloatValue "lightSources[0].specularIntensity" 0.05
  -- back right light
  let sh := sh.setVec3Value "lightSources[1].position" ⟨50.0, 20.0, -60.0⟩
  let sh := sh.setVec3Value "lightSources[1].ambientColor" ⟨0.07, 0.07, 0.07⟩
  let sh := sh.setVec3Value "lightSources[1].diffuseColor" ⟨1.0, 1.0, 1.0⟩
  let sh := sh.setVec3Value "lightSources[1].specularColor" ⟨1.0, 1.0, 1.0⟩
  let sh := sh.setFloatValue "lightSources[1].focalStrength" 100.0
  let sh := sh.setFloatValue "lightSources[1].specularIntensity" 0.05
  -- front left light
  let sh := sh.setVec3Value "lightSources[2].position" ⟨-50.0, 20.0, -10.0⟩
  let sh := sh.setVec3Value "lightSources[2].ambientColor" ⟨0.07, 0.07, 0.07⟩
  let sh := sh.setVec3Value "lightSources[2].diffuseColor" ⟨1.0, 1.0, 1.0⟩
  let sh := sh.setVec3Value "lightSources[2].specularColor" ⟨1.0, 1.0, 1.0⟩
  let sh := sh.setFloatValue "lightSources[2].focalStrength" 100.0
  let sh := sh.setFloatValue "lightSources[2].specularIntensity" 0.05
  -- front right light
  let sh := sh.setVec3Value "lightSources[3].position" ⟨40.0, 20.0, -10.0⟩
  let sh := sh.setVec3Value "lightSources[3].ambientColor" ⟨0.07, 0.07, 0.07⟩
  let sh := sh.setVec3Value "lightSources[3].diffuseColor" ⟨1.0, 1.0, 1.0⟩
  let sh := sh.setVec3Value "lightSources[3].specularColor" ⟨1.0, 1.0, 1.0⟩
  let sh := sh.setFloatValue "lightSources[3].focalStrength" 100.0
  let sh := sh.setFloatValue "lightSources[3].specularIntensity" 0.18
  sh.setBoolValue g_UseLightingName true

/-- `SetupSceneLights()`: `m_pShaderManager` is used without a null check. -/
def SetupSceneLights (s : SceneManager mat4) : Except Fault (SceneManager mat4) :=
  match s.m_pShaderManager with
  | none => .error Fault.nullShaderManager
  | some sh => .ok { s with m_pShaderManager := some (SetupSceneLights.writes sh) }

def floorMaterial : OBJECT_MATERIAL :=
  { ambientColor := ⟨0.10, 0.10, 0.10⟩
    ambientStrength := 0.01
    diffuseColor := ⟨0.10, 0.10, 0.10⟩
    specularColor := ⟨0.10, 0.10, 0.10⟩
    shininess := 35
    tag := "floor" }

def orangeMaterial : OBJECT_MATERIAL :=
  { ambientColor := ⟨1.0, 0.90, 0.0⟩
    ambientStrength := 0.03
    diffuseColor := ⟨1.0, 0.4, 0.0⟩
    specularColor := ⟨0.3, 0.3, 0.3⟩
    shininess := 75.0
    tag := "orange" }

def boxMaterial : OBJECT_MATERIAL :=
  { ambientColor := ⟨0.39, 0.39, 0.35⟩
    ambientStrength := 0.15
    diffuseColor := ⟨0.19, 0.19, 0.185⟩
    specularColor := ⟨0.41, 0.41, 0.41⟩
    shininess := 30
    tag := "box" }

def mugMaterial : OBJECT_MATERIAL :=
  { ambientColor := ⟨0.001, 0.01, 0.48⟩
    ambientStrength := 0.05
    diffuseColor := ⟨0.001, 0.001, 0.48⟩
    specularColor := ⟨0.01, 0.1, 0.1⟩
    shininess := 50
    tag := "mug" }

def coneMaterial : OBJECT_MATERIAL :=
  { ambientColor := ⟨0.75, 0.75, 0.75⟩
    ambientStrength := 0.025
    diffuseColor := ⟨0.25, 0.25, 0.25⟩
    specularColor := ⟨0.9, 0.9, 0.9⟩
    shininess := 80
    tag := "cone" }

def coffeeMaterial : OBJECT_MATERIAL :=
  { ambientColor := ⟨0.44, 0.31, 0.21⟩
    ambientStrength := 0.05
    diffuseColor := ⟨0.44, 0.31, 0.21⟩
    specularColor := ⟨0.44, 0.31, 0.21⟩
    shininess := 2
    tag := "coffee" }

def cylinderMaterial : OBJECT_MATERIAL :=
  { ambientColor := ⟨0.70, 0.70, 0.70⟩
    ambientStrength := 0.05
    diffuseColor := ⟨0.10, 0.10, 0.1⟩
    specularColor := ⟨0.3, 0.3, 0.3⟩
    shininess := 75
    tag := "cylinder" }

/-- The call `m_objectMaterials.push_back(material)`. -/
def push_back (material : OBJECT_MATERIAL) (s : SceneManager mat4) : SceneManager mat4 :=
  { s with m_objectMaterials := s.m_objectMaterials ++ [material] }

/-- `DefineObjectMaterials()`. -/
def DefineObjectMaterials (s : SceneManager mat4) : SceneManager mat4 :=
  let s := push_back floorMaterial s
  let s := push_back orangeMaterial s
  let s := push_back boxMaterial s
  let s := push_back mugMaterial s
  let s := push_back coneMaterial s
  let s := push_back coffeeMaterial s
  push_back cylinderMaterial s

/-- The call `m_basicMeshes->Load<shape>Mesh()`. -/
def LoadMesh (shape : Shape) (s : SceneManager mat4) : SceneManager mat4 :=
  { s with m_basicMeshes := { s.m_basicMeshes with loaded := s.m_basicMeshes.loaded ++ [shape] } }

/-- The call `m_basicMeshes->Draw<shape>Mesh()`. -/
def DrawMesh (shape : Shape) (s : SceneManager mat4) : SceneManager mat4 :=
  { s with m_basicMeshes := { s.m_basicMeshes with drawn := s.m_basicMeshes.drawn ++ [shape] } }

/-- `PrepareScene()`. -/
def PrepareScene (env : Env) (s : SceneManager mat4) : Except Fault (SceneManager mat4) := do
  let s := DefineObjectMaterials s
  let s ← SetupSceneLights s
  let s ← CreateSceneTextures env s
  let s := LoadMesh Shape.Plane s
  let s := LoadMesh Shape.TaperedCylinder s
  let s := LoadMesh Shape.Torus s
  let s := LoadMesh Shape.Cylinder s
  let s := LoadMesh Shape.Box s
  let s := LoadMesh Shape.Prism s
  let s := LoadMesh Shape.Sphere s
  pure (LoadMesh Shape.Pyramid4 s)

end SceneManager

/-! ## The scene script -/

/-- One call made by an object renderer: a `SceneManager` setter or a draw of the mesh
library. -/
inductive Call where
  | SetTransformations (scaleXYZ : vec3)
      (XrotationDegrees YrotationDegrees ZrotationDegrees : float) (positionXYZ : vec3)
  | SetShaderColor (redColorValue greenColorValue blueColorValue alphaValue : float)
  | SetShaderTexture (textureTag : String)
  | SetTextureUVScale (u v : float)
  | SetShaderMaterial (materialTag : String)
  | DrawMesh (shape : Shape)
deriving DecidableEq

/-- Whether a call is a draw of the mesh library. -/
def Call.isDraw : Call → Bool
  | .DrawMesh _ => true
  | _ => false

namespace SceneManager

variable {mat4 : Type}

/-- The effect of one call of a renderer on the manager. -/
def exec (glm : GLM mat4) (env : Env) : Call → SceneManager mat4 → Except Fault (SceneManager mat4)
  | .SetTransformations scaleXYZ rx ry rz positionXYZ, s =>
    .ok (SetTransformations glm scaleXYZ rx ry rz positionXYZ s)
  | .SetShaderColor r g b a, s => .ok (SetShaderColor r g b a s)
  | .SetShaderTexture textureTag, s => .ok (SetShaderTexture textureTag s)
  | .SetTextureUVScale u v, s => .ok (SetTextureUVScale u v s)
  | .SetShaderMaterial materialTag, s => SetShaderMaterial env materialTag s
  | .DrawMesh shape, s => .ok (DrawMesh shape s)

/-- The effect of a sequence of calls, in order. -/
def run (glm : GLM mat4) (env : Env) : List Call → SceneManager mat4 → Except Fault (SceneManager mat4)
  | [], s => .ok s
  | c :: cs, s =>
    match exec glm env c s with
    | .ok s1 => run glm env cs s1
    | .error e => .error e

/-- The calls of `RenderFloor()`, in source order. -/
def RenderFloor.calls : List Call :=
  let XrotationDegrees : float := 0.0
  let ZrotationDegrees : float := 0.0
  let scaleXYZ : vec3 := ⟨10.0, 1.0, 20.0⟩
  let YrotationDegreesFloor : float := 90.0
  let positionXYZ : vec3 := ⟨0.0, 0.0, 0.0⟩
  [ .SetTransformations scaleXYZ XrotationDegrees YrotationDegreesFloor ZrotationDegrees
      positionXYZ,
    .SetShaderTexture "WoodFloor",
    .SetTextureUVScale 3.0 3.0,
    .SetShaderMaterial "floor",
    .DrawMesh Shape.Plane ]

/-- `RenderFloor()`. -/
def RenderFloor (glm : GLM mat4) (env : Env) (s : SceneManager mat4) :
    Except Fault (SceneManager mat4) :=
  run glm env RenderFloor.calls s

/-- The calls of `RenderCoffeeMaker()`, in source order. -/
def RenderCoffeeMaker.calls : List Call :=
  let XrotationDegrees : float := 0.0
  let YrotationDegrees : float := 0.0
  let ZrotationDegrees : float := 0.0
  -- bottom tapered cylinder for moka pot
  let scaleXYZ : vec3 := ⟨1.0, 2.0, 1.0⟩
  let positionXYZ : vec3 := ⟨3.0, 0.0, 4.0⟩
  let bottom : List Call :=
    [ .SetTransformations scaleXYZ XrotationDegrees 180 ZrotationDegrees positionXYZ,
      .SetShaderTexture "Aluminum",
      .SetTextureUVScale 1.0 1.0,
      .SetShaderMaterial "cone",
      .DrawMesh Shape.TaperedCylinder ]
  -- middle cylinder section
  let scaleXYZ : vec3 := ⟨0.75, 0.35, 0.75⟩
  let positionXYZ : vec3 := ⟨3.0, 1.8, 4.0⟩
  let middle : List Call :=
    [ .SetTransformations scaleXYZ 180 YrotationDegrees ZrotationDegrees positionXYZ,
      .SetShaderTexture "Aluminum",
      .SetTextureUVScale 1.0 1.0,
      .SetShaderMaterial "cylinder",
      .DrawMesh Shape.Cylinder ]
  -- top tapered cylinder for moka pot (inverted)
  let scaleXYZ : vec3 := ⟨1.0, 2.0, 1.0⟩
  let positionXYZ : vec3 := ⟨3.0, 3.5, 4.0⟩
  let top : List Call :=
    [ .SetTransformations scaleXYZ 180 YrotationDegrees ZrotationDegrees positionXYZ,
      .SetShaderTexture "Aluminum",
      .SetTextureUVScale 1.0 1.0,
      .SetShaderMaterial "cone",
      .DrawMesh Shape.TaperedCylinder ]
  -- lid handle of the moka pot
  let scaleXYZ : vec3 := ⟨0.4, 0.25, 0.4⟩
  let positionXYZ : vec3 := ⟨3.0, 3.9, 3.9⟩
  let lidHandle : List Call :=
    [ .SetShaderColor (111.0 / 255.0) (78.0 / 255.0) (55.0 / 255.0) 1.0,
      .SetTransformations scaleXYZ 90 YrotationDegrees ZrotationDegrees positionXYZ,
      .SetShaderMaterial "coffee",
      .DrawMesh Shape.Cylinder ]
  -- side handle for the moka pot (horizontal)
  let scaleXYZ : vec3 := ⟨1.4, 0.25, 0.4⟩
  let positionXYZ : vec3 := ⟨4.0, 3.3, 4.0⟩
  let sideHandle1 : List Call :=
    [ .SetTransformations scaleXYZ XrotationDegrees YrotationDegrees ZrotationDegrees positionXYZ,
      .SetShaderMaterial "coffee",
      .DrawMesh Shape.Box ]
  -- side handle for the moka pot (horizontal)
  let scaleXYZ : vec3 := ⟨1.25, 0.25, 0.4⟩
  let positionXYZ : vec3 := ⟨4.6, 2.8, 4.0⟩
  let sideHandle2 : List Call :=
    [ .SetTransformations scaleXYZ XrotationDegrees YrotationDegrees 90 positionXYZ,
      .SetShaderMaterial "coffee",
      .DrawMesh Shape.Box ]
  -- spout for moka pot
  let scaleXYZ : vec3 := ⟨1.25, 0.25, 0.4⟩
  let positionXYZ : vec3 := ⟨2.1, 3.27, 4.0⟩
  let spout : List Call :=
    [ .SetTransformations scaleXYZ 90 YrotationDegrees ZrotationDegrees positionXYZ,
      .SetShaderTexture "Aluminum",
      .SetTextureUVScale 3.0 3.0,
      .SetShaderMaterial "cone",
      .DrawMesh Shape.Prism ]
  -- coloring the top of the spout coffee colored
  let scaleXYZ : vec3 := ⟨1.22, 0.22, 0.38⟩
  let positionXYZ : vec3 := ⟨2.1, 3.29, 4.0⟩
  let spoutTop : List Call :=
    [ .SetTransformations scaleXYZ 90 YrotationDegrees ZrotationDegrees positionXYZ,
      .SetShaderColor (111.0 / 255.0) (78.0 / 255.0) (55.0 / 255.0) 1.0,
      .SetShaderMaterial "coffee",
      .DrawMesh Shape.Prism ]
  bottom ++ middle ++ top ++ lidHandle ++ sideHandle1 ++ sideHandle2 ++ spout ++ spoutTop

/-- The calls of `RenderOranges()`, in source order. -/
def RenderOranges.calls : List Call :=
  let YrotationDegrees : float := 0.0
  let ZrotationDegrees : float := 0.0
  -- left mandarin orange
  let scaleXYZ : vec3 := ⟨0.75, 0.75, 0.75⟩
  let positionXYZ : vec3 := ⟨-2.0, 0.75, 5.0⟩
  let left : List Call :=
    [ .SetTransformations scaleXYZ 90 YrotationDegrees ZrotationDegrees positionXYZ,
      .SetShaderTexture "Dirt",
      .SetTextureUVScale 1.0 1.0,
      .SetShaderMaterial "orange",
      .DrawMesh Shape.Sphere ]
  -- right mandarin orange
  let scaleXYZ : vec3 := ⟨0.75, 0.75, 0.75⟩
  let positionXYZ : vec3 := ⟨-0.5, 0.75, 7.0⟩
  let right : List Call :=
    [ .SetTransformations scaleXYZ 90 90 ZrotationDegrees positionXYZ,
      .SetTextureUVScale (-1.0) 1.0,
      .DrawMesh Shape.Sphere ]
  left ++ right

/-- The calls of `RenderCoffeeMug()`, in source order. -/
def RenderCoffeeMug.calls : List Call :=
  let XrotationDegrees : float := 0.0
  let YrotationDegrees : float := 0.0
  let ZrotationDegrees : float := 0.0
  -- mug handle
  let scaleXYZ : vec3 := ⟨0.75, 0.45, 0.75⟩
  let positionXYZ : vec3 := ⟨-4.7, 1.40, 6.0⟩
  let handle : List Call :=
    [ .SetTransformations scaleXYZ XrotationDegrees YrotationDegrees ZrotationDegrees positionXYZ,
      .SetShaderColor 0.5 0.5 0.5 1.0,
      .SetShaderMaterial "mug",
      .DrawMesh Shape.Torus ]
  -- mug body
  let scaleXYZ : vec3 := ⟨1.00, 2.25, 0.75⟩
  let positionXYZ : vec3 := ⟨-5.5, 0.00, 6.0⟩
  let body : List Call :=
    [ .SetTransformations scaleXYZ XrotationDegrees YrotationDegrees ZrotationDegrees positionXYZ,
      .DrawMesh Shape.Cylinder ]
  handle ++ body

/-- The calls of `RenderMilkCarton()`, in source order. -/
def RenderMilkCarton.calls : List Call :=
  let XrotationDegrees : float := 0.0
  let YrotationDegrees : float := -20.0
  let ZrotationDegrees : float := 0.0
  -- milk carton body
  let scaleXYZ : vec3 := ⟨3.00, 6.00, 3.00⟩
  let positionXYZ : vec3 := ⟨-3.0, 3.00, 0.0⟩
  let body : List Call :=
    [ .SetTransformations scaleXYZ XrotationDegrees YrotationDegrees ZrotationDegrees positionXYZ,
      .SetShaderColor 1.0 0.9 1.0 1.0,
      .SetShaderMaterial "box",
      .DrawMesh Shape.Box ]
  -- carton top (inside portion)
  let scaleXYZ : vec3 := ⟨3.0, 3.0, 1.0⟩
  let positionXYZ : vec3 := ⟨-3.0, 6.5, 0.0⟩
  let top : List Call :=
    [ .SetTransformations scaleXYZ (-90) 0 (-110) positionXYZ,
      .DrawMesh Shape.Prism ]
  -- carton top (tab)
  let scaleXYZ : vec3 := ⟨2.95, 0.50, 0.10⟩
  let positionXYZ : vec3 := ⟨-3.0, 7.15, 0.0⟩
  let tab : List Call :=
    [ .SetTransformations scaleXYZ 0 (-20) 0 positionXYZ,
      .DrawMesh Shape.Box ]
  -- carton lid
  let scaleXYZ : vec3 := ⟨0.25, 0.25, 0.25⟩
  let positionXYZ : vec3 := ⟨-3.3, 6.35, 0.90⟩
  let lid : List Call :=
    [ .SetTransformations scaleXYZ 30 0 15 positionXYZ,
      .DrawMesh Shape.Cylinder ]
  body ++ top ++ tab ++ lid

/-- The calls of `RenderScene()`: the five object renderers in source order. -/
def RenderScene.calls : List Call :=
  RenderFloor.calls ++ RenderCoffeeMaker.calls ++ RenderOranges.calls ++ RenderCoffeeMug.calls
    ++ RenderMilkCarton.calls

/-- `RenderScene()`. -/
def RenderScene (glm : GLM mat4) (env : Env) (s : SceneManager mat4) :
    Except Fault (SceneManager mat4) :=
  run glm env RenderScene.calls s

/-! ## Auxiliary definitions: sample inputs and the states reached by successful steps -/

/-- A full table: 16 loaded slots, handle `100 + i` and tag `t<i>` at slot `i`. -/
def table16 : SceneManager Unit :=
  { m_pShaderManager := some { writes := [] }
    m_basicMeshes := { loaded := [], drawn := [] }
    m_loadedTextures := 16
    m_textureIDs :=
      [⟨100, "t0"⟩, ⟨101, "t1"⟩, ⟨102, "t2"⟩, ⟨103, "t3"⟩, ⟨104, "t4"⟩, ⟨105, "t5"⟩,
       ⟨106, "t6"⟩, ⟨107, "t7"⟩, ⟨108, "t8"⟩, ⟨109, "t9"⟩, ⟨110, "t10"⟩, ⟨111, "t11"⟩,
       ⟨112, "t12"⟩, ⟨113, "t13"⟩, ⟨114, "t14"⟩, ⟨115, "t15"⟩]
    m_objectMaterials := []
    gl := { genCount := 16, activeTexture := 0, bindings := [] } }

/-- An outside world in which every file decodes to a 64x64 image of `channels` channels and
the k-th generated texture name is `k + 1`. -/
def envChannels (channels : Int) : Env :=
  { stbi_load := fun _ => some { width := 64, height := 64, colorChannels := channels }
    glGenTextures := fun k => k + 1
    uninitMaterial :=
      { ambientColor := ⟨7, 7, 7⟩, ambientStrength := 7, diffuseColor := ⟨7, 7, 7⟩,
        specularColor := ⟨7, 7, 7⟩, shininess := 7, tag := "" } }

/-- A material record with every shading field 0 and an empty tag. -/
def blankMaterial : OBJECT_MATERIAL :=
  { ambientColor := ⟨0, 0, 0⟩, ambientStrength := 0, diffuseColor := ⟨0, 0, 0⟩,
    specularColor := ⟨0, 0, 0⟩, shininess := 0, tag := "" }

/-- A freshly constructed manager with a shader manager that has received no write: no mesh
loaded or drawn, 16 empty slots, no material. -/
def fresh (mat4 : Type) : SceneManager mat4 :=
  { m_pShaderManager := some { writes := [] }
    m_basicMeshes := { loaded := [], drawn := [] }
    m_loadedTextures := 0
    m_textureIDs := List.replicate MAX_TEXTURES default
    m_objectMaterials := []
    gl := { genCount := 0, activeTexture := 0, bindings := [] } }

/-- The file decodes to an image of 3 or 4 channels. -/
def Decodes (env : Env) (filename : String) : Prop :=
  ∃ image, env.stbi_load filename = some image
    ∧ (image.colorChannels = 3 ∨ image.colorChannels = 4)

/-- All five image files of `CreateSceneTextures` decode to 3 or 4 channels. -/
def AllDecode (env : Env) : Prop :=
  Decodes env "textures/wood.jpg" ∧ Decodes env "textures/aluminum.jpg"
    ∧ Decodes env "textures/egyptian-bricks.jpg" ∧ Decodes env "textures/orange.jpg"
    ∧ Decodes env "textures/dirt.jpg"

/-- The state that a successful `CreateGLTexture(_, tag)` leaves. -/
def registered (env : Env) (tag : String) (s : SceneManager mat4) : SceneManager mat4 :=
  { s with
    m_textureIDs := s.m_textureIDs.set s.m_loadedTextures
      { ID := env.glGenTextures s.gl.genCount, tag := tag }
    m_loadedTextures := s.m_loadedTextures + 1
    gl := ((({ s.gl with genCount := s.gl.genCount + 1 } : GLState).glBindTexture
      (env.glGenTextures s.gl.genCount)).glBindTexture 0) }

/-- The slots and count after the five successful loads of `CreateSceneTextures`. -/
def sceneTextures (env : Env) (s : SceneManager mat4) : SceneManager mat4 :=
  registered env "Dirt" (registered env "Orange" (registered env "Pyramid"
    (registered env "Aluminum" (registered env "WoodFloor" s))))

/-- The state after `PrepareScene` when every step succeeds. -/
def prepared (env : Env) (s : SceneManager mat4) (sh : ShaderManager mat4) : SceneManager mat4 :=
  LoadMesh Shape.Pyramid4 (LoadMesh Shape.Sphere (LoadMesh Shape.Prism (LoadMesh Shape.Box
    (LoadMesh Shape.Cylinder (LoadMesh Shape.Torus (LoadMesh Shape.TaperedCylinder
      (LoadMesh Shape.Plane (BindGLTextures (sceneTextures env
        { DefineObjectMaterials s with
          m_pShaderManager := some (SetupSceneLights.writes sh) })))))))))

/-- The uniform name of a field of light source `i`. -/
def lightSourceUniform (i : Nat) (field : String) : String :=
  "lightSources[" ++ toString i ++ "]." ++ field

/-- The fields of a light source that `SetupSceneLights` writes. -/
def lightSourceFields : List String :=
  ["position", "ambientColor", "diffuseColor", "specularColor", "focalStrength",
   "specularIntensity"]

/-- The five uniforms that `SetShaderMaterial` writes. -/
def materialUniforms : List String :=
  ["material.ambientColor", "material.ambientStrength", "material.diffuseColor",
   "material.specularColor", "material.shininess"]

/-! ## Properties of call traces and of the slot table -/

/-- The placement shape of a trace: a sequence of placements, each one `SetTransformations`
call, then zero or more state setters, then one draw.  The flag tells whether a placement
has been opened by its transform and not yet closed by its draw. -/
def placementShape : Bool → List Call → Bool
  | opened, [] => !opened
  | false, .SetTransformations _ _ _ _ _ :: cs => placementShape true cs
  | false, _ :: _ => false
  | true, .SetTransformations _ _ _ _ _ :: _ => false
  | true, .DrawMesh _ :: cs => placementShape false cs
  | true, _ :: cs => placementShape true cs

/-- The placement shape without the order between transform and setters: every placement
ends with its draw and has, before the draw, exactly one `SetTransformations` call and zero
or more state setters in any order.  The first flag tells whether the transform of the
current placement has been seen, the second whether the placement has any call yet. -/
def placementShapeAnyOrder : Bool → Bool → List Call → Bool
  | transformed, started, [] => !transformed && !started
  | false, _, .SetTransformations _ _ _ _ _ :: cs => placementShapeAnyOrder true true cs
  | true, _, .SetTransformations _ _ _ _ _ :: _ => false
  | true, _, .DrawMesh _ :: cs => placementShapeAnyOrder false false cs
  | false, _, .DrawMesh _ :: _ => false
  | transformed, _, _ :: cs => placementShapeAnyOrder transformed true cs

/-- The tags of the currently loaded slots, in slot order. -/
def loadedTags (s : SceneManager mat4) : List String :=
  (s.m_textureIDs.take s.m_loadedTextures).map (fun e => e.tag)

/-- The invariant of the texture slot table: the tags of the loaded slots are pairwise
distinct and every loaded slot has an index below 16. -/
def SlotInvariant (s : SceneManager mat4) : Prop :=
  (loadedTags s).Nodup ∧ ∀ i, i < s.m_loadedTextures → i < MAX_TEXTURES

/-- Whether the load of a file succeeds: the file decodes and has 3 or 4 channels. -/
def loadSucceeds (env : Env) (filename : String) : Bool :=
  match env.stbi_load filename with
  | some image => decide (image.colorChannels = 3 ∨ image.colorChannels = 4)
  | none => false

/-- The file and tag arguments of the five loads of `CreateSceneTextures`, in order. -/
def sceneTextureFiles : List (String × String) :=
  [("textures/wood.jpg", "WoodFloor"), ("textures/aluminum.jpg", "Aluminum"),
   ("textures/egyptian-bricks.jpg", "Pyramid"), ("textures/orange.jpg", "Orange"),
   ("textures/dirt.jpg", "Dirt")]

/-- An outside world in which only the listed files decode (to 3 channels); the k-th
generated texture name is `k + 1`. -/
def envOnly (files : List String) : Env :=
  { stbi_load := fun f =>
      if f ∈ files then some { width := 64, height := 64, colorChannels := 3 } else none
    glGenTextures := fun k => k + 1
    uninitMaterial := blankMaterial }

/-- The two states have the same texture and material tables. -/
def SameTables (a b : SceneManager mat4) : Prop :=
  a.m_loadedTextures = b.m_loadedTextures ∧ a.m_textureIDs = b.m_textureIDs
    ∧ a.m_objectMaterials = b.m_objectMaterials

/-- The materials that `DefineObjectMaterials` defines, in order. -/
def definedMaterials : List OBJECT_MATERIAL :=
  [floorMaterial, orangeMaterial, boxMaterial, mugMaterial, coneMaterial, coffeeMaterial,
   cylinderMaterial]

/-- The shader manager after the five uniform writes that `SetShaderMaterial` makes for a
material record. -/
def materialWrites (m : OBJECT_MATERIAL) (sh : ShaderManager mat4) : ShaderManager mat4 :=
  ((((sh.set "material.ambientColor" (.vec3 m.ambientColor)).set "material.ambientStrength"
    (.float m.ambientStrength)).set "material.diffuseColor" (.vec3 m.diffuseColor)).set
    "material.specularColor" (.vec3 m.specularColor)).set "material.shininess"
    (.float m.shininess)

/-- The texture tags that the calls of a trace pass to `SetShaderTexture`. -/
def textureTags : List Call → List String
  | [] => []
  | .SetShaderTexture tag :: cs => tag :: textureTags cs
  | _ :: cs => textureTags cs

/-- The material tags that the calls of a trace pass to `SetShaderMaterial`. -/
def materialTags : List Call → List String
  | [] => []
  | .SetShaderMaterial tag :: cs => tag :: materialTags cs
  | _ :: cs => materialTags cs

/-- The shapes that the calls of a trace draw, in order. -/
def drawnShapes : List Call → List Shape
  | [] => []
  | .DrawMesh shape :: cs => shape :: drawnShapes cs
  | _ :: cs => drawnShapes cs

end SceneManager

/-- Whether texturing is enabled in the shader: the uniform "bUseTexture" read as a
boolean. -/
def ShaderManager.texturing {mat4 : Type} (sh : ShaderManager mat4) : Bool :=
  match sh.uniform g_UseTextureName with
  | some (.int v) => decide (v ≠ 0)
  | some (.bool b) => b
  | _ => false

/-- The shader state that a draw reads: the model matrix, the texturing flag, the five
material uniforms, the texture slot and the UV scale when texturing is enabled, the flat
color when it is disabled. -/
structure DrawRead (mat4 : Type) where
  model : Option (UniformValue mat4)
  bUseTexture : Option (UniformValue mat4)
  material : List (Option (UniformValue mat4))
  objectTexture : Option (UniformValue mat4)
  UVscale : Option (UniformValue mat4)
  objectColor : Option (UniformValue mat4)

namespace SceneManager

variable {mat4 : Type}

/-- What a draw reads from a shader manager. -/
def readAtDraw (sh : ShaderManager mat4) : DrawRead mat4 :=
  { model := sh.uniform g_ModelName
    bUseTexture := sh.uniform g_UseTextureName
    material := materialUniforms.map sh.uniform
    objectTexture := if sh.texturing = true then sh.uniform g_TextureValueName else none
    UVscale := if sh.texturing = true then sh.uniform "UVscale" else none
    objectColor := if sh.texturing = true then none else sh.uniform g_ColorValueName }

/-- The run of a trace with, for every draw in order, the shape drawn and what the draw
reads of the shader manager (`none` without a shader manager). -/
def drawReads (glm : GLM mat4) (env : Env) :
    List Call → SceneManager mat4 → Except Fault (List (Shape × Option (DrawRead mat4)))
  | [], _ => .ok []
  | c :: cs, s =>
    match exec glm env c s with
    | .error e => .error e
    | .ok s1 =>
      match drawReads glm env cs s1 with
      | .error e => .error e
      | .ok log =>
        match c with
        | .DrawMesh shape => .ok ((shape, s1.m_pShaderManager.map readAtDraw) :: log)
        | _ => .ok log

/-- The uniform names that a call writes, newest first. -/
def callWrites : Call → List String
  | .SetTransformations _ _ _ _ _ => [g_ModelName]
  | .SetShaderColor _ _ _ _ => [g_ColorValueName, g_UseTextureName]
  | .SetShaderTexture _ => [g_TextureValueName, g_UseTextureName]
  | .SetTextureUVScale _ _ => ["UVscale"]
  | .SetShaderMaterial _ => materialUniforms.reverse
  | .DrawMesh _ => []

/-- The texturing flag after a call, as far as the trace determines it. -/
def flagAfter : Call → Option Bool → Option Bool
  | .SetShaderColor _ _ _ _, _ => some false
  | .SetShaderTexture _, _ => some true
  | _, flag => flag

/-- Whether the names written so far in a trace cover what a draw reads, given the
texturing flag that the trace has set. -/
def readsCovered (names : List String) : Option Bool → Bool
  | some true =>
    decide (g_ModelName ∈ names) && decide (g_UseTextureName ∈ names)
      && decide (∀ n ∈ materialUniforms, n ∈ names)
      && decide (g_TextureValueName ∈ names) && decide ("UVscale" ∈ names)
  | some false =>
    decide (g_ModelName ∈ names) && decide (g_UseTextureName ∈ names)
      && decide (∀ n ∈ materialUniforms, n ∈ names)
      && decide (g_ColorValueName ∈ names)
  | none => false

/-- Whether every draw of a trace reads only uniforms that the trace itself has written
before the draw; `names` and `flag` are what has been written before the trace. -/
def drawsDetermined : List Call → List String → Option Bool → Bool
  | [], _, _ => true
  | .DrawMesh _ :: cs, names, flag => readsCovered names flag && drawsDetermined cs names flag
  | c :: cs, names, flag => drawsDetermined cs (callWrites c ++ names) (flagAfter c flag)

/-- Two shader managers agree on the listed uniform names, and both have the texturing flag
that the trace has set, when it has set one. -/
def Agree (names : List String) (flag : Option Bool) (a b : ShaderManager mat4) : Prop :=
  (∀ n ∈ names, a.uniform n = b.uniform n)
    ∧ ∀ t, flag = some t → a.texturing = t ∧ b.texturing = t

/-- A shader manager that already holds a flat color, a disabled texturing flag and a
shininess from an earlier frame. -/
def staleShader (mat4 : Type) : ShaderManager mat4 :=
  { writes := [("objectColor", .vec4 ⟨1, 0, 0, 1⟩), ("bUseTexture", .int 0),
      ("material.shininess", .float 99)] }

end SceneManager

/-! ## Theorems -/

namespace SceneManager

variable {mat4 : Type}

/-- C1: with a shader manager present, `SetTransformations` leaves under the uniform name
"model" exactly the product `Translate(t) * RotateX(rx) * RotateY(ry) * RotateZ(rz) * Scale(s)`,
multiplied from the left in that order, where the rotations are `glm::rotate` of the angle
in radians about the x, y and z axis; the write is the newest one of the shader manager and
nothing else of the manager changes. -/
theorem SetTransformations_model_matrix (glm : GLM mat4) (scaleXYZ : vec3)
    (rx ry rz : float) (positionXYZ : vec3) (s : SceneManager mat4) (sh : ShaderManager mat4)
    (h : s.m_pShaderManager = some sh) :
    let M := glm.mul (glm.mul (glm.mul (glm.mul (glm.translate positionXYZ)
      (glm.rotate (glm.radians rx) ⟨1, 0, 0⟩)) (glm.rotate (glm.radians ry) ⟨0, 1, 0⟩))
      (glm.rotate (glm.radians rz) ⟨0, 0, 1⟩)) (glm.scale scaleXYZ)
    SetTransformations glm scaleXYZ rx ry rz positionXYZ s
        = { s with m_pShaderManager := some { writes := ("model", .mat4 M) :: sh.writes } }
      ∧ ((SetTransformations glm scaleXYZ rx ry rz positionXYZ s).m_pShaderManager.bind
          (fun sh1 => sh1.uniform "model")) = some (.mat4 M) := by
  intro M
  have e : SetTransformations glm scaleXYZ rx ry rz positionXYZ s
      = { s with m_pShaderManager := some { writes := ("model", .mat4 M) :: sh.writes } } := by
    simp only [SetTransformations, h, ShaderManager.setMat4Value, ShaderManager.set, g_ModelName, M]
  refine ⟨e, ?_⟩
  rw [e]
  simp [ShaderManager.uniform]

/-- C1 at scale (2,3,4), rotations 30, 45, 60 degrees, translation (5,6,7). -/
theorem SetTransformations_model_matrix_witness :
    ((SetTransformations MatExpr.glm ⟨2, 3, 4⟩ 30 45 60 ⟨5, 6, 7⟩
        (fresh MatExpr)).m_pShaderManager.bind (fun sh1 => sh1.uniform "model"))
      = some (.mat4 (.mul (.mul (.mul (.mul (.translate ⟨5, 6, 7⟩)
          (.rotate (MatExpr.glm.radians 30) ⟨1, 0, 0⟩))
          (.rotate (MatExpr.glm.radians 45) ⟨0, 1, 0⟩))
          (.rotate (MatExpr.glm.radians 60) ⟨0, 0, 1⟩)) (.scale ⟨2, 3, 4⟩))) :=
  (SetTransformations_model_matrix MatExpr.glm ⟨2, 3, 4⟩ 30 45 60 ⟨5, 6, 7⟩ (fresh MatExpr)
    { writes := [] } rfl).2

theorem FindTextureSlot_loop_miss (ids : List TEXTURE_INFO) (tag : String) :
    ∀ (n index : Nat), (∀ j, index ≤ j → j < index + n → (ids.getD j default).tag ≠ tag) →
      FindTextureSlot.loop ids tag n index = -1
  | 0, _, _ => rfl
  | n + 1, index, h => by
    have h0 := h index (le_refl _) (by omega)
    rw [FindTextureSlot.loop, if_neg h0]
    exact FindTextureSlot_loop_miss ids tag n (index + 1) (fun j hj1 hj2 => h j (by omega) (by omega))

theorem FindTextureSlot_loop_hit (ids : List TEXTURE_INFO) (tag : String) (i : Nat)
    (hi : (ids.getD i default).tag = tag) :
    ∀ (n index : Nat), index ≤ i → i < index + n →
      (∀ j, index ≤ j → j < i → (ids.getD j default).tag ≠ tag) →
      FindTextureSlot.loop ids tag n index = (i : Int)
  | 0, _, h1, h2, _ => by omega
  | n + 1, index, h1, h2, h => by
    rw [FindTextureSlot.loop]
    by_cases e : index = i
    · subst e; rw [if_pos hi]
    · rw [if_neg (h index (le_refl _) (by omega))]
      exact FindTextureSlot_loop_hit ids tag i hi n (index + 1) (by omega) (by omega)
        (fun j hj1 hj2 => h j (by omega) hj2)

theorem FindTextureID_loop_miss (ids : List TEXTURE_INFO) (tag : String) :
    ∀ (n index : Nat), (∀ j, index ≤ j → j < index + n → (ids.getD j default).tag ≠ tag) →
      FindTextureID.loop ids tag n index = -1
  | 0, _, _ => rfl
  | n + 1, index, h => by
    have h0 := h index (le_refl _) (by omega)
    rw [FindTextureID.loop, if_neg h0]
    exact FindTextureID_loop_miss ids tag n (index + 1) (fun j hj1 hj2 => h j (by omega) (by omega))

theorem FindTextureID_loop_hit (ids : List TEXTURE_INFO) (tag : String) (i : Nat)
    (hi : (ids.getD i default).tag = tag) :
    ∀ (n index : Nat), index ≤ i → i < index + n →
      (∀ j, index ≤ j → j < i → (ids.getD j default).tag ≠ tag) →
      FindTextureID.loop ids tag n index = intOfGLuint (ids.getD i default).ID
  | 0, _, h1, h2, _ => by omega
  | n + 1, index, h1, h2, h => by
    rw [FindTextureID.loop]
    by_cases e : index = i
    · subst e; rw [if_pos hi]
    · rw [if_neg (h index (le_refl _) (by omega))]
      exact FindTextureID_loop_hit ids tag i hi n (index + 1) (by omega) (by omega)
        (fun j hj1 hj2 => h j (by omega) hj2)

theorem getD_of_getElem? {ids : List TEXTURE_INFO} {i : Nat} {e : TEXTURE_INFO}
    (h : ids[i]? = some e) : ids.getD i default = e := by
  simp [List.getD, h]

theorem intOfGLuint_small {u : Nat} (h : u < 2 ^ 31) : intOfGLuint u = (u : Int) := by
  have h2 : u % 2 ^ 32 = u := Nat.mod_eq_of_lt (by omega)
  unfold intOfGLuint
  rw [h2, if_pos h]

/-- C2: on a slot table with `m_loadedTextures` at most 16, the size of the array: when no
loaded entry has the tag, `FindTextureSlot` and `FindTextureID` both return -1; when `i` is the
least loaded index whose entry has the tag, `FindTextureSlot` returns `i` and `FindTextureID`
returns the handle stored at slot `i`, as the `int` that the `GLuint` converts to (the handle
itself whenever it is below 2^31). -/
theorem FindTexture_first_match (s : SceneManager mat4) (tag : String)
    (hlen : s.m_textureIDs.length = MAX_TEXTURES) (hn : s.m_loadedTextures ≤ MAX_TEXTURES) :
    ((∀ i e, i < s.m_loadedTextures → s.m_textureIDs[i]? = some e → e.tag ≠ tag) →
        FindTextureSlot s tag = -1 ∧ FindTextureID s tag = -1)
    ∧ (∀ i e, i < s.m_loadedTextures → s.m_textureIDs[i]? = some e → e.tag = tag →
        (∀ j e1, j < i → s.m_textureIDs[j]? = some e1 → e1.tag ≠ tag) →
        FindTextureSlot s tag = (i : Int) ∧ FindTextureID s tag = intOfGLuint e.ID
          ∧ (e.ID < 2 ^ 31 → FindTextureID s tag = (e.ID : Int))) := by
  have inb : ∀ j, j < s.m_loadedTextures → ∃ e, s.m_textureIDs[j]? = some e := by
    intro j hj
    have : j < s.m_textureIDs.length := by omega
    exact ⟨s.m_textureIDs[j], List.getElem?_eq_getElem this⟩
  constructor
  · intro hmiss
    have hm : ∀ j, 0 ≤ j → j < 0 + s.m_loadedTextures →
        (s.m_textureIDs.getD j default).tag ≠ tag := by
      intro j _ hj
      obtain ⟨e, he⟩ := inb j (by omega)
      rw [getD_of_getElem? he]
      exact hmiss j e (by omega) he
    exact ⟨FindTextureSlot_loop_miss _ _ _ _ hm, FindTextureID_loop_miss _ _ _ _ hm⟩
  · intro i e hi he htag hfirst
    have hg := getD_of_getElem? he
    have hi' : (s.m_textureIDs.getD i default).tag = tag := by rw [hg]; exact htag
    have hf : ∀ j, 0 ≤ j → j < i → (s.m_textureIDs.getD j default).tag ≠ tag := by
      intro j _ hj
      obtain ⟨e1, he1⟩ := inb j (by omega)
      rw [getD_of_getElem? he1]
      exact hfirst j e1 hj he1
    have hid : FindTextureID s tag = intOfGLuint e.ID := by
      have := FindTextureID_loop_hit s.m_textureIDs tag i hi' s.m_loadedTextures 0 (by omega) (by omega) hf
      rw [hg] at this
      exact this
    refine ⟨FindTextureSlot_loop_hit _ _ i hi' _ _ (by omega) (by omega) hf, hid, ?_⟩
    intro hsmall
    rw [hid, intOfGLuint_small hsmall]

/-- C2 on a full table of 16 entries: a tag never registered, and the tags registered first,
in the middle and last. -/
theorem FindTexture_first_match_witness :
    (FindTextureSlot table16 "zz" = -1 ∧ FindTextureID table16 "zz" = -1)
    ∧ (FindTextureSlot table16 "t0" = 0 ∧ FindTextureID table16 "t0" = 100)
    ∧ (FindTextureSlot table16 "t7" = 7 ∧ FindTextureID table16 "t7" = 107)
    ∧ (FindTextureSlot table16 "t15" = 15 ∧ FindTextureID table16 "t15" = 115) := by
  have miss : ∀ (tag : String) (k : Nat), k ≤ 16 →
      (∀ j, j < k → (table16.m_textureIDs.getD j default).tag ≠ tag) →
      ∀ j e1, j < k → table16.m_textureIDs[j]? = some e1 → e1.tag ≠ tag := by
    intro tag k _ h j e1 hj he
    rw [← getD_of_getElem? he]
    exact h j hj
  have hit := fun (tag : String) => (FindTexture_first_match table16 tag rfl (by decide)).2
  refine ⟨(FindTexture_first_match table16 "zz" rfl (by decide)).1
      (miss "zz" 16 (by decide) (by decide)), ?_, ?_, ?_⟩
  · have h := hit "t0" 0 ⟨100, "t0"⟩ (by decide) rfl rfl (miss "t0" 0 (by decide) (by decide))
    exact ⟨h.1, h.2.2 (by decide)⟩
  · have h := hit "t7" 7 ⟨107, "t7"⟩ (by decide) rfl rfl (miss "t7" 7 (by decide) (by decide))
    exact ⟨h.1, h.2.2 (by decide)⟩
  · have h := hit "t15" 15 ⟨115, "t15"⟩ (by decide) rfl rfl (miss "t15" 15 (by decide) (by decide))
    exact ⟨h.1, h.2.2 (by decide)⟩

theorem CreateGLTexture_ok (env : Env) (filename tag : String) (s : SceneManager mat4)
    (image : Image) (himg : env.stbi_load filename = some image)
    (hch : image.colorChannels = 3 ∨ image.colorChannels = 4)
    (hcap : s.m_loadedTextures < s.m_textureIDs.length) :
    CreateGLTexture env filename tag s = .ok (true,
      { s with
        m_textureIDs := s.m_textureIDs.set s.m_loadedTextures
          { ID := env.glGenTextures s.gl.genCount, tag := tag }
        m_loadedTextures := s.m_loadedTextures + 1
        gl := ((({ s.gl with genCount := s.gl.genCount + 1 } : GLState).glBindTexture
          (env.glGenTextures s.gl.genCount)).glBindTexture 0) }) := by
  simp only [CreateGLTexture, himg, if_pos hch, if_pos hcap]

/-- C3 (amended): when the file decodes, an image of 1 or 2 channels makes `CreateGLTexture`
return false with the slot array and the loaded count unchanged, in every state; an image of 3
or 4 channels, in a state whose loaded count is below the size of the slot array, makes it
return true with the count increased by exactly 1, the tag and the generated handle stored at
the previous count's index, every other slot unchanged and the array size unchanged. -/
theorem CreateGLTexture_channels (env : Env) (filename tag : String) (s : SceneManager mat4)
    (image : Image) (himg : env.stbi_load filename = some image) :
    ((image.colorChannels = 1 ∨ image.colorChannels = 2) →
      ∃ s1, CreateGLTexture env filename tag s = .ok (false, s1)
        ∧ s1.m_textureIDs = s.m_textureIDs ∧ s1.m_loadedTextures = s.m_loadedTextures)
    ∧ ((image.colorChannels = 3 ∨ image.colorChannels = 4) →
      s.m_loadedTextures < s.m_textureIDs.length →
      ∃ s1, CreateGLTexture env filename tag s = .ok (true, s1)
        ∧ s1.m_loadedTextures = s.m_loadedTextures + 1
        ∧ s1.m_textureIDs[s.m_loadedTextures]?
            = some { ID := env.glGenTextures s.gl.genCount, tag := tag }
        ∧ (∀ j, j ≠ s.m_loadedTextures → s1.m_textureIDs[j]? = s.m_textureIDs[j]?)
        ∧ s1.m_textureIDs.length = s.m_textureIDs.length) := by
  constructor
  · intro h
    have hn : ¬ (image.colorChannels = 3 ∨ image.colorChannels = 4) := by omega
    have e : CreateGLTexture env filename tag s = .ok (false, { s with
        gl := GLState.glBindTexture { s.gl with genCount := s.gl.genCount + 1 }
          (env.glGenTextures s.gl.genCount) }) := by
      simp only [CreateGLTexture, himg, if_neg hn]
    exact ⟨_, e, rfl, rfl⟩
  · intro hch hcap
    refine ⟨_, CreateGLTexture_ok env filename tag s image himg hch hcap, rfl, ?_, ?_, ?_⟩
    · simp [hcap]
    · intro j hj
      simp [List.getElem?_set, Ne.symm hj]
    · simp

/-- C3 on a fresh manager: a 2-channel image is refused, a 4-channel image is registered in
slot 0. -/
theorem CreateGLTexture_channels_witness :
    (∃ s1, CreateGLTexture (envChannels 2) "textures/wood.jpg" "WoodFloor" (fresh Unit)
        = .ok (false, s1)
      ∧ s1.m_textureIDs = (fresh Unit).m_textureIDs ∧ s1.m_loadedTextures = 0)
    ∧ (∃ s1, CreateGLTexture (envChannels 4) "textures/wood.jpg" "WoodFloor" (fresh Unit)
        = .ok (true, s1)
      ∧ s1.m_loadedTextures = 1 ∧ s1.m_textureIDs[0]? = some { ID := 1, tag := "WoodFloor" }) := by
  constructor
  · exact (CreateGLTexture_channels (envChannels 2) "textures/wood.jpg" "WoodFloor" (fresh Unit)
      { width := 64, height := 64, colorChannels := 2 } rfl).1 (Or.inr rfl)
  · obtain ⟨s1, h1, h2, h3, _⟩ :=
      (CreateGLTexture_channels (envChannels 4) "textures/wood.jpg" "WoodFloor" (fresh Unit)
        { width := 64, height := 64, colorChannels := 4 } rfl).2 (Or.inr rfl) (by decide)
    exact ⟨s1, h1, h2, h3⟩

/-- C3 as stated fails on a full table: with 16 slots loaded and a 3-channel image the write
`m_textureIDs[16]` is behind the end of the array, and the call does not return success. -/
theorem CreateGLTexture_full_table_fault :
    (envChannels 3).stbi_load "textures/wood.jpg"
        = some { width := 64, height := 64, colorChannels := 3 }
    ∧ table16.m_loadedTextures = 16 ∧ table16.m_textureIDs.length = 16
    ∧ CreateGLTexture (envChannels 3) "textures/wood.jpg" "WoodFloor" table16
        = .error Fault.textureSlotOutOfRange
    ∧ ¬ ∃ s1, CreateGLTexture (envChannels 3) "textures/wood.jpg" "WoodFloor" table16
        = .ok (true, s1) := by
  refine ⟨rfl, rfl, rfl, rfl, ?_⟩
  rintro ⟨s1, h⟩
  have e : CreateGLTexture (envChannels 3) "textures/wood.jpg" "WoodFloor" table16
      = .error Fault.textureSlotOutOfRange := rfl
  rw [e] at h
  cases h

theorem FindMaterial_loop_miss (tag : String) (material : OBJECT_MATERIAL) :
    ∀ (mats : List OBJECT_MATERIAL), (∀ m ∈ mats, m.tag ≠ tag) →
      FindMaterial.loop tag mats material = material
  | [], _ => rfl
  | m :: rest, h => by
    rw [FindMaterial.loop, if_neg (h m (List.mem_cons_self _ _))]
    exact FindMaterial_loop_miss tag material rest
      (fun m1 h1 => h m1 (List.mem_cons_of_mem _ h1))

theorem FindMaterial_loop_hit (m : OBJECT_MATERIAL) (material : OBJECT_MATERIAL) :
    ∀ (mats : List OBJECT_MATERIAL), (mats.map (fun e => e.tag)).Nodup → m ∈ mats →
      FindMaterial.loop m.tag mats material = { m with tag := material.tag }
  | [], _, hm => by simp at hm
  | m0 :: rest, hnd, hm => by
    rw [List.map_cons, List.nodup_cons] at hnd
    rw [FindMaterial.loop]
    rcases List.mem_cons.1 hm with e | hin
    · subst e
      rw [if_pos rfl]
    · have hne : m0.tag ≠ m.tag := by
        intro e
        exact hnd.1 (e ▸ List.mem_map_of_mem (fun e => e.tag) hin)
      rw [if_neg hne]
      exact FindMaterial_loop_hit m material rest hnd.2 hin

/-- C4 (amended): in a material table with pairwise distinct tags, `FindMaterial(m.tag, out)`
for an entry `m` of the table returns true and leaves in `out` the five shading fields of `m`
(ambientColor, ambientStrength, diffuseColor, specularColor, shininess); the `tag` of `out` is
not written and keeps the value it had before the call. -/
theorem FindMaterial_copies_shading_fields (s : SceneManager mat4) (m out : OBJECT_MATERIAL)
    (hdistinct : (s.m_objectMaterials.map (fun e => e.tag)).Nodup)
    (hm : m ∈ s.m_objectMaterials) :
    FindMaterial s m.tag out = (true, { m with tag := out.tag }) := by
  have hne : ¬ s.m_objectMaterials.length = 0 := by
    intro h
    rw [List.length_eq_zero] at h
    rw [h] at hm
    simp at hm
  rw [FindMaterial, if_neg hne, FindMaterial_loop_hit m out _ hdistinct hm]

/-- C4 (amended) on the seven defined materials, queried for "coffee". -/
theorem FindMaterial_copies_shading_fields_witness :
    FindMaterial (DefineObjectMaterials (fresh Unit)) "coffee" blankMaterial
      = (true, { coffeeMaterial with tag := "" }) :=
  FindMaterial_copies_shading_fields (DefineObjectMaterials (fresh Unit)) coffeeMaterial
    blankMaterial (by decide) (by simp [DefineObjectMaterials, push_back, fresh])

/-- C4 as stated fails: on the seven defined materials, `FindMaterial("floor", out)` with an
`out` whose tag is empty returns true and leaves the tag empty, so `out` is not the stored
record. -/
theorem FindMaterial_tag_not_copied :
    ((DefineObjectMaterials (fresh Unit)).m_objectMaterials.map (fun e => e.tag)).Nodup
      ∧ floorMaterial ∈ (DefineObjectMaterials (fresh Unit)).m_objectMaterials
      ∧ (FindMaterial (DefineObjectMaterials (fresh Unit)) floorMaterial.tag blankMaterial).1 = true
      ∧ (FindMaterial (DefineObjectMaterials (fresh Unit)) floorMaterial.tag blankMaterial).2.tag = ""
      ∧ (FindMaterial (DefineObjectMaterials (fresh Unit)) floorMaterial.tag blankMaterial).2
          ≠ floorMaterial := by
  refine ⟨by decide, by simp [DefineObjectMaterials, push_back, fresh], rfl, rfl, ?_⟩
  intro h
  have h2 := congrArg OBJECT_MATERIAL.tag h
  revert h2
  decide

/-- C5: `FindMaterial` returns false exactly when the material table is empty; on a non-empty
table without an entry of the tag it returns true and leaves the output record as it was. -/
theorem FindMaterial_false_iff_empty (s : SceneManager mat4) (tag : String)
    (out : OBJECT_MATERIAL) :
    ((FindMaterial s tag out).1 = false ↔ s.m_objectMaterials = [])
    ∧ (s.m_objectMaterials ≠ [] → (∀ m ∈ s.m_objectMaterials, m.tag ≠ tag) →
        FindMaterial s tag out = (true, out)) := by
  constructor
  · unfold FindMaterial
    by_cases h : s.m_objectMaterials.length = 0
    · rw [if_pos h]
      simpa using h
    · rw [if_neg h]
      have h2 : s.m_objectMaterials ≠ [] := fun e => h (by rw [e]; rfl)
      simp [h2]
  · intro hne hmiss
    have h : ¬ s.m_objectMaterials.length = 0 := fun e => hne (List.length_eq_zero.1 e)
    rw [FindMaterial, if_neg h, FindMaterial_loop_miss tag out _ hmiss]

/-- C5 on the seven defined materials, queried for the tag "plum" that none of them has. -/
theorem FindMaterial_false_iff_empty_witness :
    ((FindMaterial (DefineObjectMaterials (fresh Unit)) "plum" blankMaterial).1 = false
        ↔ (DefineObjectMaterials (fresh Unit)).m_objectMaterials = [])
    ∧ FindMaterial (DefineObjectMaterials (fresh Unit)) "plum" blankMaterial
        = (true, blankMaterial) :=
  ⟨(FindMaterial_false_iff_empty (DefineObjectMaterials (fresh Unit)) "plum" blankMaterial).1,
   (FindMaterial_false_iff_empty (DefineObjectMaterials (fresh Unit)) "plum" blankMaterial).2
     (by decide) (by decide)⟩

theorem uniform_set_self (sh : ShaderManager mat4) (name : String) (v : UniformValue mat4) :
    (sh.set name v).uniform name = some v := by
  simp [ShaderManager.set, ShaderManager.uniform]

theorem uniform_set_ne (sh : ShaderManager mat4) (name other : String) (v : UniformValue mat4)
    (h : name ≠ other) : (sh.set name v).uniform other = sh.uniform other := by
  simp [ShaderManager.set, ShaderManager.uniform, List.find?_cons, h]

/-- C6 (the code at a failing input): the material table holds the seven materials of
`DefineObjectMaterials`, none tagged "plum".  After `SetShaderMaterial("floor")` the uniform
"material.shininess" is 35; `SetShaderMaterial("plum")` then writes five uniforms taken from
its uninitialised local record (here every field 7), so the shininess read by the next draw is
7 and the state is not the one before the call. -/
theorem SetShaderMaterial_unmatched_pushes :
    (∀ m ∈ (DefineObjectMaterials (fresh Unit)).m_objectMaterials, m.tag ≠ "plum")
    ∧ ∃ s1 s2 sh1 sh2,
        SetShaderMaterial (envChannels 3) "floor" (DefineObjectMaterials (fresh Unit)) = .ok s1
        ∧ SetShaderMaterial (envChannels 3) "plum" s1 = .ok s2
        ∧ s1.m_pShaderManager = some sh1 ∧ s2.m_pShaderManager = some sh2
        ∧ sh1.uniform "material.shininess" = some (.float 35)
        ∧ sh2.uniform "material.shininess" = some (.float 7)
        ∧ sh2.writes.length = sh1.writes.length + 5
        ∧ s2 ≠ s1 := by
  refine ⟨by decide, _, _, _, _, rfl, rfl, rfl, rfl, rfl, rfl, rfl, ?_⟩
  intro h
  have h2 := congrArg (fun s => (s.m_pShaderManager.map (fun sh => sh.writes.length))) h
  revert h2
  decide

/-- C7: with a shader manager present, `SetShaderTexture(tag)` changes only the shader manager;
afterwards "bUseTexture" is the int 1 and "objectTexture" is the sampler value
`FindTextureSlot(tag)`, the slot index; when no loaded slot has the tag the flag is still 1 and
the sampler is -1; every other uniform reads as before. -/
theorem SetShaderTexture_pushes_slot (textureTag : String) (s : SceneManager mat4)
    (sh : ShaderManager mat4) (h : s.m_pShaderManager = some sh) :
    ∃ sh1, SetShaderTexture textureTag s = { s with m_pShaderManager := some sh1 }
      ∧ sh1.uniform "bUseTexture" = some (.int 1)
      ∧ sh1.uniform "objectTexture" = some (.sampler2D (FindTextureSlot s textureTag))
      ∧ (s.m_loadedTextures ≤ s.m_textureIDs.length →
          (∀ i e, i < s.m_loadedTextures → s.m_textureIDs[i]? = some e → e.tag ≠ textureTag) →
          sh1.uniform "bUseTexture" = some (.int 1)
            ∧ sh1.uniform "objectTexture" = some (.sampler2D (-1)))
      ∧ (∀ name, name ≠ "bUseTexture" → name ≠ "objectTexture" →
          sh1.uniform name = sh.uniform name) := by
  refine ⟨(sh.setIntValue g_UseTextureName 1).setSampler2DValue g_TextureValueName
    (FindTextureSlot s textureTag), ?_, ?_, ?_, ?_, ?_⟩
  · simp only [SetShaderTexture, h]
  · rw [ShaderManager.setSampler2DValue, uniform_set_ne _ _ _ _ (by decide)]
    exact uniform_set_self _ _ _
  · exact uniform_set_self _ _ _
  · intro hcap hmiss
    have hm : FindTextureSlot s textureTag = -1 := by
      apply FindTextureSlot_loop_miss
      intro j _ hj
      have hj2 : j < s.m_textureIDs.length := by omega
      rw [getD_of_getElem? (List.getElem?_eq_getElem hj2)]
      exact hmiss j _ (by omega) (List.getElem?_eq_getElem hj2)
    constructor
    · rw [ShaderManager.setSampler2DValue, uniform_set_ne _ _ _ _ (by decide)]
      exact uniform_set_self _ _ _
    · rw [hm]
      exact uniform_set_self _ _ _
  · intro name h1 h2
    rw [ShaderManager.setSampler2DValue, uniform_set_ne _ g_TextureValueName name _ (Ne.symm h2),
      ShaderManager.setIntValue, uniform_set_ne _ g_UseTextureName name _ (Ne.symm h1)]

/-- C7 on the full table: the tag "t7" sits in slot 7 with handle 107, and the sampler is
set to 7. -/
theorem SetShaderTexture_pushes_slot_witness :
    ∃ sh1, SetShaderTexture "t7" table16 = { table16 with m_pShaderManager := some sh1 }
      ∧ sh1.uniform "bUseTexture" = some (.int 1)
      ∧ sh1.uniform "objectTexture" = some (.sampler2D 7) := by
  obtain ⟨sh1, h1, h2, h3, _⟩ := SetShaderTexture_pushes_slot "t7" table16 { writes := [] } rfl
  exact ⟨sh1, h1, h2, h3⟩

theorem CreateGLTexture_registered (env : Env) (filename tag : String) (s : SceneManager mat4)
    (hd : Decodes env filename) (hcap : s.m_loadedTextures < s.m_textureIDs.length) :
    CreateGLTexture env filename tag s = .ok (true, registered env tag s) := by
  obtain ⟨image, himg, hch⟩ := hd
  exact CreateGLTexture_ok env filename tag s image himg hch hcap

@[simp] theorem registered_loaded (env : Env) (tag : String) (s : SceneManager mat4) :
    (registered env tag s).m_loadedTextures = s.m_loadedTextures + 1 := rfl

@[simp] theorem registered_length (env : Env) (tag : String) (s : SceneManager mat4) :
    (registered env tag s).m_textureIDs.length = s.m_textureIDs.length := by
  simp [registered]

theorem CreateSceneTextures_ok (env : Env) (s : SceneManager mat4) (hd : AllDecode env)
    (hcap : s.m_loadedTextures + 5 ≤ s.m_textureIDs.length) :
    CreateSceneTextures env s = .ok (BindGLTextures (sceneTextures env s)) := by
  obtain ⟨h0, h1, h2, h3, h4⟩ := hd
  unfold CreateSceneTextures sceneTextures
  rw [CreateGLTexture_registered env _ _ s h0 (by omega)]
  simp only [bind, Except.bind]
  rw [CreateGLTexture_registered env _ _ _ h1 (by simp; omega)]
  simp only [bind, Except.bind]
  rw [CreateGLTexture_registered env _ _ _ h2 (by simp; omega)]
  simp only [bind, Except.bind]
  rw [CreateGLTexture_registered env _ _ _ h3 (by simp; omega)]
  simp only [bind, Except.bind]
  rw [CreateGLTexture_registered env _ _ _ h4 (by simp; omega)]
  rfl

theorem DefineObjectMaterials_shader (s : SceneManager mat4) :
    (DefineObjectMaterials s).m_pShaderManager = s.m_pShaderManager := by
  simp only [DefineObjectMaterials, push_back]

theorem DefineObjectMaterials_loaded (s : SceneManager mat4) :
    (DefineObjectMaterials s).m_loadedTextures = s.m_loadedTextures := by
  simp only [DefineObjectMaterials, push_back]

theorem DefineObjectMaterials_slots (s : SceneManager mat4) :
    (DefineObjectMaterials s).m_textureIDs = s.m_textureIDs := by
  simp only [DefineObjectMaterials, push_back]

theorem SetupSceneLights_ok (s : SceneManager mat4) (sh : ShaderManager mat4)
    (hsh : s.m_pShaderManager = some sh) :
    SetupSceneLights s = .ok { s with m_pShaderManager := some (SetupSceneLights.writes sh) } := by
  simp only [SetupSceneLights, hsh]

theorem PrepareScene_ok (env : Env) (s : SceneManager mat4) (sh : ShaderManager mat4)
    (hsh : s.m_pShaderManager = some sh) (hd : AllDecode env)
    (hcap : s.m_loadedTextures + 5 ≤ s.m_textureIDs.length) :
    PrepareScene env s = .ok (prepared env s sh) := by
  have h1 := SetupSceneLights_ok (DefineObjectMaterials s) sh
    (by rw [DefineObjectMaterials_shader]; exact hsh)
  have h2 := CreateSceneTextures_ok env { DefineObjectMaterials s with
    m_pShaderManager := some (SetupSceneLights.writes sh) } hd
    (by simp only [DefineObjectMaterials_loaded, DefineObjectMaterials_slots]; exact hcap)
  unfold PrepareScene prepared
  simp only [bind, Except.bind]
  rw [h1]
  simp only []
  rw [h2]
  rfl

theorem lightSourceNames :
    (List.range 4).flatMap (fun i => lightSourceFields.map (lightSourceUniform i))
      = ["lightSources[0].position", "lightSources[0].ambientColor",
         "lightSources[0].diffuseColor", "lightSources[0].specularColor",
         "lightSources[0].focalStrength", "lightSources[0].specularIntensity",
         "lightSources[1].position", "lightSources[1].ambientColor",
         "lightSources[1].diffuseColor", "lightSources[1].specularColor",
         "lightSources[1].focalStrength", "lightSources[1].specularIntensity",
         "lightSources[2].position", "lightSources[2].ambientColor",
         "lightSources[2].diffuseColor", "lightSources[2].specularColor",
         "lightSources[2].focalStrength", "lightSources[2].specularIntensity",
         "lightSources[3].position", "lightSources[3].ambientColor",
         "lightSources[3].diffuseColor", "lightSources[3].specularColor",
         "lightSources[3].focalStrength", "lightSources[3].specularIntensity"] := by
  decide

theorem lights_written_names (sh : ShaderManager mat4) :
    (SetupSceneLights.writes sh).writes.map Prod.fst
      = "bUseLighting" :: ((List.range 4).flatMap
          (fun i => lightSourceFields.map (lightSourceUniform i))).reverse
        ++ sh.writes.map Prod.fst := by
  rw [lightSourceNames]
  rfl

theorem exists_five_of_length {α : Type} (l : List α) (h : 5 ≤ l.length) :
    ∃ a0 a1 a2 a3 a4 rest, l = a0 :: a1 :: a2 :: a3 :: a4 :: rest := by
  match l, h with
  | a0 :: a1 :: a2 :: a3 :: a4 :: rest, _ => exact ⟨a0, a1, a2, a3, a4, rest, rfl⟩

theorem DefineObjectMaterials_gl (s : SceneManager mat4) :
    (DefineObjectMaterials s).gl = s.gl := by
  simp only [DefineObjectMaterials, push_back]

theorem registered_slots (env : Env) (tag : String) (s : SceneManager mat4) :
    (registered env tag s).m_textureIDs = s.m_textureIDs.set s.m_loadedTextures
      { ID := env.glGenTextures s.gl.genCount, tag := tag } := rfl

theorem registered_genCount (env : Env) (tag : String) (s : SceneManager mat4) :
    (registered env tag s).gl.genCount = s.gl.genCount + 1 := rfl

theorem registered_materials (env : Env) (tag : String) (s : SceneManager mat4) :
    (registered env tag s).m_objectMaterials = s.m_objectMaterials := rfl

theorem sceneTextures_slots (env : Env) (s : SceneManager mat4) :
    (sceneTextures env s).m_textureIDs
      = ((((s.m_textureIDs.set s.m_loadedTextures
          ⟨env.glGenTextures s.gl.genCount, "WoodFloor"⟩).set (s.m_loadedTextures + 1)
          ⟨env.glGenTextures (s.gl.genCount + 1), "Aluminum"⟩).set (s.m_loadedTextures + 2)
          ⟨env.glGenTextures (s.gl.genCount + 2), "Pyramid"⟩).set (s.m_loadedTextures + 3)
          ⟨env.glGenTextures (s.gl.genCount + 3), "Orange"⟩).set (s.m_loadedTextures + 4)
          ⟨env.glGenTextures (s.gl.genCount + 4), "Dirt"⟩ := by
  simp only [sceneTextures, registered_slots, registered_loaded, registered_genCount,
    Nat.add_assoc]

theorem sceneTextures_loaded (env : Env) (s : SceneManager mat4) :
    (sceneTextures env s).m_loadedTextures = s.m_loadedTextures + 5 := by
  simp only [sceneTextures, registered_loaded, Nat.add_assoc]

theorem prepared_slots (env : Env) (s : SceneManager mat4) (sh : ShaderManager mat4) :
    (prepared env s sh).m_textureIDs
      = (sceneTextures env { DefineObjectMaterials s with
          m_pShaderManager := some (SetupSceneLights.writes sh) }).m_textureIDs := by
  simp only [prepared, LoadMesh, BindGLTextures]

theorem prepared_gl (env : Env) (s : SceneManager mat4) (sh : ShaderManager mat4) :
    (prepared env s sh).gl
      = BindGLTextures.loop (prepared env s sh).m_textureIDs (prepared env s sh).m_loadedTextures 0
          (sceneTextures env { DefineObjectMaterials s with
            m_pShaderManager := some (SetupSceneLights.writes sh) }).gl := by
  simp only [prepared, LoadMesh, BindGLTextures]

theorem boundTexture_bind (gl : GLState) (i id j : Nat) :
    ((gl.glActiveTexture i).glBindTexture id).boundTexture j
      = if j = i then id else gl.boundTexture j := by
  by_cases h : i = j
  · simp [GLState.boundTexture, GLState.glBindTexture, GLState.glActiveTexture, h]
  · have h2 : ¬ j = i := fun e => h e.symm
    simp [GLState.boundTexture, GLState.glBindTexture, GLState.glActiveTexture, h, h2,
      List.find?_cons]

theorem BindGLTextures_loop_bound (ids : List TEXTURE_INFO) :
    ∀ (n i : Nat) (gl : GLState) (j : Nat),
      (BindGLTextures.loop ids n i gl).boundTexture j
        = if i ≤ j ∧ j < i + n then (ids.getD j default).ID else gl.boundTexture j
  | 0, i, gl, j => by
    have : ¬ (i ≤ j ∧ j < i + 0) := by omega
    rw [BindGLTextures.loop, if_neg this]
  | n + 1, i, gl, j => by
    rw [BindGLTextures.loop, BindGLTextures_loop_bound ids n (i + 1), boundTexture_bind]
    by_cases h1 : j = i
    · subst h1
      have : ¬ (j + 1 ≤ j ∧ j < j + 1 + n) := by omega
      rw [if_neg this, if_pos rfl, if_pos (by omega)]
    · rw [if_neg h1]
      by_cases h2 : i + 1 ≤ j ∧ j < i + 1 + n
      · rw [if_pos h2, if_pos (by omega)]
      · rw [if_neg h2, if_neg (by omega)]

theorem prepared_shader (env : Env) (s : SceneManager mat4) (sh : ShaderManager mat4) :
    (prepared env s sh).m_pShaderManager = some (SetupSceneLights.writes sh) := by
  simp only [prepared, LoadMesh, BindGLTextures, sceneTextures, registered]

theorem prepared_loaded (env : Env) (s : SceneManager mat4) (sh : ShaderManager mat4) :
    (prepared env s sh).m_loadedTextures = s.m_loadedTextures + 5 := by
  simp only [prepared, LoadMesh, BindGLTextures, sceneTextures, registered,
    DefineObjectMaterials_loaded]

theorem prepared_materials (env : Env) (s : SceneManager mat4) (sh : ShaderManager mat4) :
    (prepared env s sh).m_objectMaterials
      = s.m_objectMaterials ++ [floorMaterial, orangeMaterial, boxMaterial, mugMaterial,
          coneMaterial, coffeeMaterial, cylinderMaterial] := by
  simp only [prepared, LoadMesh, BindGLTextures, sceneTextures, registered,
    DefineObjectMaterials, push_back, List.append_assoc, List.cons_append, List.nil_append]

theorem lights_enabled (sh : ShaderManager mat4) :
    (SetupSceneLights.writes sh).uniform "bUseLighting" = some (.bool true) := by
  unfold SetupSceneLights.writes
  exact uniform_set_self _ _ _

/-- C8: on a fresh manager with a shader manager, all five decodes giving 3 or 4 channels,
`PrepareScene` returns, and afterwards: 5 textures are loaded; slots 0..4 hold the tags
"WoodFloor", "Aluminum", "Pyramid", "Orange", "Dirt" with the five generated handles in order;
texture unit `i` has the handle of slot `i` bound for `i < 5`; the material table has 7
entries; the uniforms written are exactly the six fields of the light sources 0..3 and
"bUseLighting", and "bUseLighting" is true. -/
theorem PrepareScene_tables (env : Env) (s : SceneManager mat4) (sh : ShaderManager mat4)
    (hfresh : Fresh s) (hsh : s.m_pShaderManager = some sh) (hd : AllDecode env) :
    ∃ s1 sh1, PrepareScene env s = .ok s1 ∧ s1.m_pShaderManager = some sh1
      ∧ s1.m_loadedTextures = 5
      ∧ s1.m_textureIDs.take 5
          = [⟨env.glGenTextures s.gl.genCount, "WoodFloor"⟩,
             ⟨env.glGenTextures (s.gl.genCount + 1), "Aluminum"⟩,
             ⟨env.glGenTextures (s.gl.genCount + 2), "Pyramid"⟩,
             ⟨env.glGenTextures (s.gl.genCount + 3), "Orange"⟩,
             ⟨env.glGenTextures (s.gl.genCount + 4), "Dirt"⟩]
      ∧ (∀ i, i < 5 → s1.gl.boundTexture i = (s1.m_textureIDs.getD i default).ID)
      ∧ s1.m_objectMaterials.length = 7
      ∧ sh1.writes.map Prod.fst
          = "bUseLighting" :: ((List.range 4).flatMap
              (fun i => lightSourceFields.map (lightSourceUniform i))).reverse
            ++ sh.writes.map Prod.fst
      ∧ sh1.uniform "bUseLighting" = some (.bool true) := by
  obtain ⟨h0, hlen, hmat⟩ := hfresh
  have hcap : s.m_loadedTextures + 5 ≤ s.m_textureIDs.length := by
    rw [h0, hlen]; decide
  refine ⟨prepared env s sh, SetupSceneLights.writes sh, PrepareScene_ok env s sh hsh hd hcap,
    prepared_shader env s sh, ?_, ?_, ?_, ?_, lights_written_names sh, lights_enabled sh⟩
  · rw [prepared_loaded, h0]
  · obtain ⟨a0, a1, a2, a3, a4, rest, hids⟩ := exists_five_of_length s.m_textureIDs (by omega)
    rw [prepared_slots, sceneTextures_slots]
    simp only [DefineObjectMaterials_slots, DefineObjectMaterials_loaded, DefineObjectMaterials_gl,
      h0, hids]
    rfl
  · intro i hi
    rw [prepared_gl, BindGLTextures_loop_bound, prepared_loaded, h0, if_pos (by omega)]
  · rw [prepared_materials, hmat]; rfl

theorem envChannels_allDecode (channels : Int) (h : channels = 3 ∨ channels = 4) :
    AllDecode (envChannels channels) :=
  ⟨⟨_, rfl, h⟩, ⟨_, rfl, h⟩, ⟨_, rfl, h⟩, ⟨_, rfl, h⟩, ⟨_, rfl, h⟩⟩

/-- C8 on the fresh manager with 3-channel images and handles 1, 2, 3, ... -/
theorem PrepareScene_tables_witness :
    ∃ s1, PrepareScene (envChannels 3) (fresh Unit) = .ok s1
      ∧ s1.m_loadedTextures = 5
      ∧ s1.m_textureIDs.take 5
          = [⟨1, "WoodFloor"⟩, ⟨2, "Aluminum"⟩, ⟨3, "Pyramid"⟩, ⟨4, "Orange"⟩, ⟨5, "Dirt"⟩]
      ∧ s1.m_objectMaterials.length = 7 := by
  obtain ⟨s1, sh1, h1, _, h3, h4, _, h6, _⟩ :=
    PrepareScene_tables (envChannels 3) (fresh Unit) { writes := [] } (by decide) rfl
      (envChannels_allDecode 3 (Or.inl rfl))
  exact ⟨s1, h1, h3, h4, h6⟩

theorem exists_ten_of_length {α : Type} (l : List α) (h : 10 ≤ l.length) :
    ∃ a0 a1 a2 a3 a4 a5 a6 a7 a8 a9 rest,
      l = a0 :: a1 :: a2 :: a3 :: a4 :: a5 :: a6 :: a7 :: a8 :: a9 :: rest := by
  match l, h with
  | a0 :: a1 :: a2 :: a3 :: a4 :: a5 :: a6 :: a7 :: a8 :: a9 :: rest, _ =>
    exact ⟨a0, a1, a2, a3, a4, a5, a6, a7, a8, a9, rest, rfl⟩

theorem prepared_length (env : Env) (s : SceneManager mat4) (sh : ShaderManager mat4) :
    (prepared env s sh).m_textureIDs.length = s.m_textureIDs.length := by
  rw [prepared_slots, sceneTextures_slots]
  simp only [List.length_set, DefineObjectMaterials_slots]

theorem FindMaterial_loop_append_self (tag : String) (material : OBJECT_MATERIAL)
    (l : List OBJECT_MATERIAL) :
    ∀ (l1 : List OBJECT_MATERIAL),
      FindMaterial.loop tag (l1 ++ l) material
        = if ∃ m ∈ l1, m.tag = tag then FindMaterial.loop tag l1 material
          else FindMaterial.loop tag l material
  | [] => by simp
  | m :: rest => by
    rw [List.cons_append, FindMaterial.loop, FindMaterial.loop]
    by_cases h : m.tag = tag
    · rw [if_pos h, if_pos h, if_pos ⟨m, List.mem_cons_self _ _, h⟩]
    · rw [if_neg h, if_neg h, FindMaterial_loop_append_self tag material l rest]
      simp [h]

theorem FindMaterial_loop_twice (tag : String) (material : OBJECT_MATERIAL)
    (l : List OBJECT_MATERIAL) :
    FindMaterial.loop tag (l ++ l) material = FindMaterial.loop tag l material := by
  rw [FindMaterial_loop_append_self]
  split
  · rfl
  · rfl

/-- C9: on a fresh manager with a shader manager, all decodes giving 3 or 4 channels in both
runs, `PrepareScene` returns twice in sequence; the first 5 slots and the first 7 materials
after the second call are those after the first; the second call leaves 10 loaded slots, within
the 16 of the array, whose size is unchanged; and for every tag `FindTextureSlot`,
`FindTextureID` and `FindMaterial` (for every output record) give after the second call what
they gave after the first. -/
theorem PrepareScene_twice (env1 env2 : Env) (s : SceneManager mat4) (sh : ShaderManager mat4)
    (hfresh : Fresh s) (hsh : s.m_pShaderManager = some sh)
    (hd1 : AllDecode env1) (hd2 : AllDecode env2) :
    ∃ s1 s2, PrepareScene env1 s = .ok s1 ∧ PrepareScene env2 s1 = .ok s2
      ∧ s2.m_textureIDs.take 5 = s1.m_textureIDs.take 5
      ∧ s2.m_objectMaterials.take 7 = s1.m_objectMaterials.take 7
      ∧ s1.m_loadedTextures = 5 ∧ s1.m_objectMaterials.length = 7
      ∧ s2.m_loadedTextures = 10 ∧ s2.m_loadedTextures ≤ MAX_TEXTURES
      ∧ s2.m_textureIDs.length = MAX_TEXTURES
      ∧ ∀ tag, FindTextureSlot s2 tag = FindTextureSlot s1 tag
          ∧ FindTextureID s2 tag = FindTextureID s1 tag
          ∧ ∀ out, FindMaterial s2 tag out = FindMaterial s1 tag out := by
  obtain ⟨h0, hlen, hmat⟩ := hfresh
  have hcap : s.m_loadedTextures + 5 ≤ s.m_textureIDs.length := by
    rw [h0, hlen]; decide
  have hn1 : (prepared env1 s sh).m_loadedTextures = 5 := by rw [prepared_loaded, h0]
  have hl1 : (prepared env1 s sh).m_textureIDs.length = MAX_TEXTURES := by
    rw [prepared_length, hlen]
  have hcap1 : (prepared env1 s sh).m_loadedTextures + 5
      ≤ (prepared env1 s sh).m_textureIDs.length := by
    rw [hn1, hl1]; decide
  have hn2 : (prepared env2 (prepared env1 s sh) (SetupSceneLights.writes sh)).m_loadedTextures
      = 10 := by rw [prepared_loaded, hn1]
  have hm1 : (prepared env1 s sh).m_objectMaterials
      = [floorMaterial, orangeMaterial, boxMaterial, mugMaterial, coneMaterial, coffeeMaterial,
          cylinderMaterial] := by
    rw [prepared_materials, hmat]; rfl
  have hm2 : (prepared env2 (prepared env1 s sh) (SetupSceneLights.writes sh)).m_objectMaterials
      = (prepared env1 s sh).m_objectMaterials ++ (prepared env1 s sh).m_objectMaterials := by
    rw [prepared_materials, hm1]
  obtain ⟨a0, a1, a2, a3, a4, a5, a6, a7, a8, a9, rest, hids⟩ :=
    exists_ten_of_length s.m_textureIDs (by rw [hlen]; decide)
  have hs1 : (prepared env1 s sh).m_textureIDs
      = ⟨env1.glGenTextures s.gl.genCount, "WoodFloor"⟩
        :: ⟨env1.glGenTextures (s.gl.genCount + 1), "Aluminum"⟩
        :: ⟨env1.glGenTextures (s.gl.genCount + 2), "Pyramid"⟩
        :: ⟨env1.glGenTextures (s.gl.genCount + 3), "Orange"⟩
        :: ⟨env1.glGenTextures (s.gl.genCount + 4), "Dirt"⟩
        :: a5 :: a6 :: a7 :: a8 :: a9 :: rest := by
    rw [prepared_slots, sceneTextures_slots]
    simp only [DefineObjectMaterials_slots, DefineObjectMaterials_loaded,
      DefineObjectMaterials_gl, h0, hids]
    rfl
  have hs2 : ∃ f5 f6 f7 f8 f9,
      (prepared env2 (prepared env1 s sh) (SetupSceneLights.writes sh)).m_textureIDs
      = ⟨env1.glGenTextures s.gl.genCount, "WoodFloor"⟩
        :: ⟨env1.glGenTextures (s.gl.genCount + 1), "Aluminum"⟩
        :: ⟨env1.glGenTextures (s.gl.genCount + 2), "Pyramid"⟩
        :: ⟨env1.glGenTextures (s.gl.genCount + 3), "Orange"⟩
        :: ⟨env1.glGenTextures (s.gl.genCount + 4), "Dirt"⟩
        :: ⟨f5, "WoodFloor"⟩ :: ⟨f6, "Aluminum"⟩ :: ⟨f7, "Pyramid"⟩ :: ⟨f8, "Orange"⟩
        :: ⟨f9, "Dirt"⟩ :: rest := by
    refine ⟨env2.glGenTextures (prepared env1 s sh).gl.genCount,
      env2.glGenTextures ((prepared env1 s sh).gl.genCount + 1),
      env2.glGenTextures ((prepared env1 s sh).gl.genCount + 2),
      env2.glGenTextures ((prepared env1 s sh).gl.genCount + 3),
      env2.glGenTextures ((prepared env1 s sh).gl.genCount + 4), ?_⟩
    rw [prepared_slots, sceneTextures_slots]
    simp only [DefineObjectMaterials_slots, DefineObjectMaterials_loaded,
      DefineObjectMaterials_gl, hn1, hs1]
    rfl
  obtain ⟨f5, f6, f7, f8, f9, hs2⟩ := hs2
  refine ⟨prepared env1 s sh, prepared env2 (prepared env1 s sh) (SetupSceneLights.writes sh),
    PrepareScene_ok env1 s sh hsh hd1 hcap,
    PrepareScene_ok env2 _ _ (prepared_shader env1 s sh) hd2 hcap1, ?_, ?_, hn1, ?_, hn2, ?_, ?_,
    ?_⟩
  · rw [hs1, hs2]; rfl
  · rw [hm2, hm1]; rfl
  · rw [hm1]; rfl
  · rw [hn2]; decide
  · rw [prepared_length, hl1]
  · intro tag
    refine ⟨?_, ?_, ?_⟩
    · unfold FindTextureSlot
      rw [hs1, hs2, hn1, hn2]
      simp only [FindTextureSlot.loop, List.getD_cons_zero, List.getD_cons_succ]
      split_ifs <;> rfl
    · unfold FindTextureID
      rw [hs1, hs2, hn1, hn2]
      simp only [FindTextureID.loop, List.getD_cons_zero, List.getD_cons_succ]
      split_ifs <;> rfl
    · intro out
      unfold FindMaterial
      rw [hm2, FindMaterial_loop_twice, hm1]
      rfl

/-- C9 on the fresh manager, 3-channel images in the first run and 4-channel in the
second. -/
theorem PrepareScene_twice_witness :
    ∃ s1 s2, PrepareScene (envChannels 3) (fresh Unit) = .ok s1
      ∧ PrepareScene (envChannels 4) s1 = .ok s2
      ∧ s2.m_textureIDs.take 5 = s1.m_textureIDs.take 5
      ∧ s2.m_objectMaterials.take 7 = s1.m_objectMaterials.take 7
      ∧ FindTextureSlot s2 "Dirt" = FindTextureSlot s1 "Dirt" := by
  obtain ⟨s1, s2, h1, h2, h3, h4, _, _, _, _, _, h10⟩ :=
    PrepareScene_twice (envChannels 3) (envChannels 4) (fresh Unit) { writes := [] } (by decide)
      rfl (envChannels_allDecode 3 (Or.inl rfl)) (envChannels_allDecode 4 (Or.inr rfl))
  exact ⟨s1, s2, h1, h2, h3, h4, (h10 "Dirt").1⟩

theorem SetShaderMaterial_frame (env : Env) (materialTag : String) (s : SceneManager mat4)
    (sh : ShaderManager mat4) (hsh : s.m_pShaderManager = some sh) :
    ∃ sh1, SetShaderMaterial env materialTag s = .ok { s with m_pShaderManager := some sh1 }
      ∧ ∀ name, name ∉ materialUniforms → sh1.uniform name = sh.uniform name := by
  unfold SetShaderMaterial
  by_cases h : s.m_objectMaterials.length > 0
  · have hl : ¬ s.m_objectMaterials.length = 0 := by omega
    have h1 : (FindMaterial s materialTag { env.uninitMaterial with tag := "" }).1 = true := by
      rw [FindMaterial, if_neg hl]
    rw [if_pos h]
    simp only [h1, if_true, hsh]
    refine ⟨_, rfl, ?_⟩
    intro name hname
    simp only [materialUniforms, List.mem_cons, List.mem_singleton, List.not_mem_nil, or_false,
      not_or] at hname
    obtain ⟨n1, n2, n3, n4, n5⟩ := hname
    simp only [ShaderManager.setVec3Value, ShaderManager.setFloatValue]
    rw [uniform_set_ne _ "material.shininess" name _ (Ne.symm n5),
      uniform_set_ne _ "material.specularColor" name _ (Ne.symm n4),
      uniform_set_ne _ "material.diffuseColor" name _ (Ne.symm n3),
      uniform_set_ne _ "material.ambientStrength" name _ (Ne.symm n2),
      uniform_set_ne _ "material.ambientColor" name _ (Ne.symm n1)]
  · rw [if_neg h]
    refine ⟨sh, ?_, fun _ _ => rfl⟩
    rw [← hsh]

/-- C10: the calls of `RenderFloor` contain exactly one draw, of the plane, as the last call;
before it come `SetTransformations` with scale (10,1,20), rotations (0,90,0) and translation
(0,0,0), `SetShaderTexture("WoodFloor")` and `SetTextureUVScale(3,3)`.  Run on a manager with
a shader manager, `RenderFloor` returns with the plane appended to the draws, and the state
that draw reads has the model matrix of that transform, texturing on, the sampler at the slot
of "WoodFloor" and UV scale (3,3). -/
theorem RenderFloor_one_plane_draw :
    RenderFloor.calls.filter Call.isDraw = [.DrawMesh Shape.Plane]
    ∧ (∃ pre, RenderFloor.calls = pre ++ [.DrawMesh Shape.Plane]
        ∧ Call.SetTransformations ⟨10, 1, 20⟩ 0 90 0 ⟨0, 0, 0⟩ ∈ pre
        ∧ Call.SetShaderTexture "WoodFloor" ∈ pre
        ∧ Call.SetTextureUVScale 3 3 ∈ pre)
    ∧ ∀ (glm : GLM mat4) (env : Env) (s : SceneManager mat4) (sh : ShaderManager mat4),
        s.m_pShaderManager = some sh →
        ∃ s1 sh1, RenderFloor glm env s = .ok s1 ∧ s1.m_pShaderManager = some sh1
          ∧ s1.m_basicMeshes.drawn = s.m_basicMeshes.drawn ++ [Shape.Plane]
          ∧ sh1.uniform "model" = some (.mat4 (glm.mul (glm.mul (glm.mul (glm.mul
              (glm.translate ⟨0, 0, 0⟩) (glm.rotate (glm.radians 0) ⟨1, 0, 0⟩))
              (glm.rotate (glm.radians 90) ⟨0, 1, 0⟩)) (glm.rotate (glm.radians 0) ⟨0, 0, 1⟩))
              (glm.scale ⟨10, 1, 20⟩)))
          ∧ sh1.uniform "bUseTexture" = some (.int 1)
          ∧ sh1.uniform "objectTexture" = some (.sampler2D (FindTextureSlot s "WoodFloor"))
          ∧ sh1.uniform "UVscale" = some (.vec2 ⟨3, 3⟩) := by
  refine ⟨?_, ?_, ?_⟩
  · simp [RenderFloor.calls, Call.isDraw]
  · refine ⟨RenderFloor.calls.take 4, ?_, ?_, ?_, ?_⟩ <;>
      norm_num [RenderFloor.calls]
  · intro glm env s sh hsh
    obtain ⟨sh1, h1, hframe⟩ := SetShaderMaterial_frame env "floor"
      (SetTextureUVScale 3.0 3.0 (SetShaderTexture "WoodFloor"
        (SetTransformations glm ⟨10.0, 1.0, 20.0⟩ 0.0 90.0 0.0 ⟨0.0, 0.0, 0.0⟩ s)))
      (((((sh.setMat4Value g_ModelName _).setIntValue g_UseTextureName 1).setSampler2DValue
        g_TextureValueName (FindTextureSlot s "WoodFloor")).setVec2Value "UVscale" ⟨3.0, 3.0⟩))
      (by simp only [SetTextureUVScale, SetShaderTexture, SetTransformations, hsh]; rfl)
    refine ⟨DrawMesh Shape.Plane { SetTextureUVScale 3.0 3.0 (SetShaderTexture "WoodFloor"
        (SetTransformations glm ⟨10.0, 1.0, 20.0⟩ 0.0 90.0 0.0 ⟨0.0, 0.0, 0.0⟩ s)) with
        m_pShaderManager := some sh1 }, sh1, ?_, ?_, ?_, ?_, ?_, ?_, ?_⟩
    · simp only [RenderFloor, RenderFloor.calls, run, exec, h1]
    · rfl
    · simp only [DrawMesh, SetTextureUVScale, SetShaderTexture, SetTransformations, hsh]
    · rw [hframe _ (by decide), ShaderManager.setVec2Value,
        uniform_set_ne _ "UVscale" "model" _ (by decide), ShaderManager.setSampler2DValue,
        uniform_set_ne _ g_TextureValueName "model" _ (by decide), ShaderManager.setIntValue,
        uniform_set_ne _ g_UseTextureName "model" _ (by decide), ShaderManager.setMat4Value]
      refine (uniform_set_self _ g_ModelName _).trans ?_
      norm_num
    · rw [hframe _ (by decide), ShaderManager.setVec2Value,
        uniform_set_ne _ "UVscale" "bUseTexture" _ (by decide), ShaderManager.setSampler2DValue,
        uniform_set_ne _ g_TextureValueName "bUseTexture" _ (by decide), ShaderManager.setIntValue]
      exact uniform_set_self _ g_UseTextureName _
    · rw [hframe _ (by decide), ShaderManager.setVec2Value,
        uniform_set_ne _ "UVscale" "objectTexture" _ (by decide), ShaderManager.setSampler2DValue]
      exact uniform_set_self _ g_TextureValueName _
    · rw [hframe _ (by decide), ShaderManager.setVec2Value, uniform_set_self]
      norm_num


/-- C10 run on the fresh manager with symbolic matrices. -/
theorem RenderFloor_one_plane_draw_witness :
    ∃ s1 sh1, RenderFloor MatExpr.glm (envChannels 3) (fresh MatExpr) = .ok s1
      ∧ s1.m_pShaderManager = some sh1
      ∧ s1.m_basicMeshes.drawn = [Shape.Plane]
      ∧ sh1.uniform "UVscale" = some (.vec2 ⟨3, 3⟩) := by
  obtain ⟨s1, sh1, h1, h2, h3, _, _, _, h7⟩ :=
    (RenderFloor_one_plane_draw).2.2 MatExpr.glm (envChannels 3) (fresh MatExpr)
      { writes := [] } rfl
  exact ⟨s1, sh1, h1, h2, h3, h7⟩

/-- C11 (amended): the traces of `RenderFloor`, `RenderOranges`, `RenderCoffeeMug` and
`RenderMilkCarton` are sequences of placements of the shape one `SetTransformations`, then
state setters, then one draw.  The trace of `RenderCoffeeMaker` is such a sequence up to one
call: the `SetShaderColor` of the lid handle, which stands after the draw of the third
placement and before the `SetTransformations` of the fourth; with it, every placement of
that trace still ends with its draw and has exactly one transform and all its setters before
the draw. -/
theorem renderers_placement_shape :
    placementShape false RenderFloor.calls = true
    ∧ placementShape false RenderOranges.calls = true
    ∧ placementShape false RenderCoffeeMug.calls = true
    ∧ placementShape false RenderMilkCarton.calls = true
    ∧ placementShapeAnyOrder false false RenderCoffeeMaker.calls = true
    ∧ ∃ pre post, RenderCoffeeMaker.calls
          = pre ++ Call.SetShaderColor (111.0 / 255.0) (78.0 / 255.0) (55.0 / 255.0) 1.0 :: post
        ∧ placementShape false pre = true ∧ placementShape false post = true
        ∧ (pre.filter Call.isDraw).length = 3 := by
  refine ⟨by decide, by decide, by decide, by decide, by decide,
    RenderCoffeeMaker.calls.take 15, RenderCoffeeMaker.calls.drop 16, ?_, by decide, by decide,
    by decide⟩
  rfl

/-- C11 as stated fails: in the trace of `RenderCoffeeMaker` a state setter stands between a
draw and the next `SetTransformations`: call 14 is the draw of the upper tapered cylinder,
call 15 is `SetShaderColor`, call 16 is the `SetTransformations` of the lid handle. -/
theorem RenderCoffeeMaker_setter_before_transform :
    placementShape false RenderCoffeeMaker.calls = false
    ∧ RenderCoffeeMaker.calls[14]? = some (Call.DrawMesh Shape.TaperedCylinder)
    ∧ RenderCoffeeMaker.calls[15]?
        = some (Call.SetShaderColor (111.0 / 255.0) (78.0 / 255.0) (55.0 / 255.0) 1.0)
    ∧ RenderCoffeeMaker.calls[16]?
        = some (Call.SetTransformations ⟨0.4, 0.25, 0.4⟩ 90 0.0 0.0 ⟨3.0, 3.9, 3.9⟩) := by
  refine ⟨by decide, rfl, rfl, rfl⟩

theorem take_succ_set {α : Type} (a : α) :
    ∀ (l : List α) (n : Nat), n < l.length → (l.set n a).take (n + 1) = l.take n ++ [a]
  | [], n, h => by simp at h
  | x :: l, 0, _ => by simp
  | x :: l, n + 1, h => by
    have h2 : n < l.length := by simpa using h
    simp [List.set, take_succ_set a l n h2]

theorem CreateGLTexture_outcome (env : Env) (filename tag : String) (s s1 : SceneManager mat4)
    (b : Bool) (h : CreateGLTexture env filename tag s = .ok (b, s1)) :
    s1.m_textureIDs.length = s.m_textureIDs.length
    ∧ ((b = false ∧ loadSucceeds env filename = false ∧ s1.m_loadedTextures = s.m_loadedTextures
          ∧ loadedTags s1 = loadedTags s)
      ∨ (b = true ∧ loadSucceeds env filename = true
          ∧ s.m_loadedTextures < s.m_textureIDs.length
          ∧ s1.m_loadedTextures = s.m_loadedTextures + 1
          ∧ loadedTags s1 = loadedTags s ++ [tag])) := by
  unfold CreateGLTexture at h
  cases himg : env.stbi_load filename with
  | none =>
    rw [himg] at h
    simp only [Except.ok.injEq, Prod.mk.injEq] at h
    obtain ⟨hb, hs⟩ := h
    subst hs
    exact ⟨rfl, Or.inl ⟨hb.symm, by simp [loadSucceeds, himg], rfl, rfl⟩⟩
  | some image =>
    rw [himg] at h
    by_cases hch : image.colorChannels = 3 ∨ image.colorChannels = 4
    · simp only [if_pos hch] at h
      by_cases hcap : s.m_loadedTextures < s.m_textureIDs.length
      · simp only [if_pos hcap, Except.ok.injEq, Prod.mk.injEq] at h
        obtain ⟨hb, hs⟩ := h
        subst hs
        refine ⟨by simp, Or.inr ⟨hb.symm, by simp [loadSucceeds, himg, hch], hcap, rfl, ?_⟩⟩
        simp only [loadedTags, take_succ_set _ _ _ hcap, List.map_append, List.map_cons,
          List.map_nil]
      · simp only [if_neg hcap] at h
        cases h
    · simp only [if_neg hch, Except.ok.injEq, Prod.mk.injEq] at h
      obtain ⟨hb, hs⟩ := h
      subst hs
      exact ⟨rfl, Or.inl ⟨hb.symm, by simp [loadSucceeds, himg, hch], rfl, rfl⟩⟩

/-- C12 (amended): the slot invariant holds for every table without loaded slots.  A
`CreateGLTexture` call that returns, from a state that satisfies the invariant, keeps every
loaded slot's index below 16; it keeps the tags of the loaded slots pairwise distinct
exactly when it returns false (nothing is registered) or its tag is not yet among the loaded
slots. -/
theorem SlotInvariant_CreateGLTexture (env : Env) (filename tag : String)
    (s s1 : SceneManager mat4) (b : Bool) :
    (s.m_loadedTextures = 0 → SlotInvariant s)
    ∧ (s.m_textureIDs.length = MAX_TEXTURES → SlotInvariant s →
        CreateGLTexture env filename tag s = .ok (b, s1) →
        (∀ i, i < s1.m_loadedTextures → i < MAX_TEXTURES)
        ∧ (SlotInvariant s1 ↔ (b = false ∨ tag ∉ loadedTags s))) := by
  constructor
  · intro h0
    refine ⟨?_, ?_⟩
    · simp [loadedTags, h0]
    · intro i hi
      rw [h0] at hi
      omega
  · intro hlen hinv h
    obtain ⟨hl, hcase⟩ := CreateGLTexture_outcome env filename tag s s1 b h
    rcases hcase with ⟨hb, _, hn, ht⟩ | ⟨hb, _, hcap, hn, ht⟩
    · have hidx : ∀ i, i < s1.m_loadedTextures → i < MAX_TEXTURES := by
        intro i hi
        rw [hn] at hi
        exact hinv.2 i hi
      refine ⟨hidx, ?_⟩
      constructor
      · intro _
        exact Or.inl hb
      · intro _
        refine ⟨?_, hidx⟩
        rw [ht]
        exact hinv.1
    · have hidx : ∀ i, i < s1.m_loadedTextures → i < MAX_TEXTURES := by
        intro i hi
        rw [hn] at hi
        rw [hlen] at hcap
        omega
      refine ⟨hidx, ?_⟩
      constructor
      · intro hinv1
        right
        have hnd := hinv1.1
        rw [ht] at hnd
        intro hmem
        exact (List.nodup_append.1 hnd).2.2 hmem (List.mem_singleton_self tag)
      · intro hor
        rcases hor with hf | hnot
        · rw [hb] at hf
          cases hf
        · refine ⟨?_, hidx⟩
          rw [ht]
          refine List.nodup_append.2 ⟨hinv.1, List.nodup_singleton tag, ?_⟩
          intro a ha hb2
          rw [List.mem_singleton] at hb2
          subst hb2
          exact hnot ha

/-- C12 (amended) on the fresh manager: the first load of "WoodFloor" keeps the invariant. -/
theorem SlotInvariant_CreateGLTexture_witness :
    SlotInvariant (fresh Unit)
    ∧ ∃ s1, CreateGLTexture (envChannels 3) "textures/wood.jpg" "WoodFloor" (fresh Unit)
        = .ok (true, s1) ∧ SlotInvariant s1 := by
  have h : CreateGLTexture (envChannels 3) "textures/wood.jpg" "WoodFloor" (fresh Unit)
      = .ok (true, registered (envChannels 3) "WoodFloor" (fresh Unit)) := rfl
  have h0 := (SlotInvariant_CreateGLTexture (envChannels 3) "textures/wood.jpg" "WoodFloor"
    (fresh Unit) (registered (envChannels 3) "WoodFloor" (fresh Unit)) true).1 rfl
  exact ⟨h0, _, h, ((SlotInvariant_CreateGLTexture (envChannels 3) "textures/wood.jpg" "WoodFloor"
    (fresh Unit) (registered (envChannels 3) "WoodFloor" (fresh Unit)) true).2 rfl h0 h).2.2
      (Or.inr (by decide))⟩

/-- C12 as stated fails: the invariant holds after one load of "WoodFloor" on the fresh
manager, and a second load under the same tag returns true and leaves two loaded slots with
the tag "WoodFloor". -/
theorem SlotInvariant_broken_by_duplicate_tag :
    ∃ s1 s2, CreateGLTexture (envChannels 3) "textures/wood.jpg" "WoodFloor" (fresh Unit)
        = .ok (true, s1)
      ∧ SlotInvariant s1
      ∧ CreateGLTexture (envChannels 3) "textures/wood.jpg" "WoodFloor" s1 = .ok (true, s2)
      ∧ loadedTags s2 = ["WoodFloor", "WoodFloor"]
      ∧ ¬ SlotInvariant s2 := by
  refine ⟨registered (envChannels 3) "WoodFloor" (fresh Unit),
    registered (envChannels 3) "WoodFloor" (registered (envChannels 3) "WoodFloor" (fresh Unit)),
    rfl, ⟨by decide, by decide⟩, rfl, rfl, ?_⟩
  intro h
  have h2 : (["WoodFloor", "WoodFloor"] : List String).Nodup := h.1
  revert h2
  decide

theorem CreateGLTexture_step (env : Env) (filename tag : String) (s : SceneManager mat4)
    (hcap : s.m_loadedTextures < s.m_textureIDs.length) :
    ∃ b s1, CreateGLTexture env filename tag s = .ok (b, s1)
      ∧ s1.m_textureIDs.length = s.m_textureIDs.length
      ∧ s1.m_loadedTextures
          = s.m_loadedTextures + (if loadSucceeds env filename = true then 1 else 0)
      ∧ loadedTags s1
          = loadedTags s ++ (if loadSucceeds env filename = true then [tag] else []) := by
  have hex : ∃ b s1, CreateGLTexture env filename tag s = .ok (b, s1) := by
    unfold CreateGLTexture
    cases env.stbi_load filename with
    | none => exact ⟨_, _, rfl⟩
    | some image =>
      by_cases hch : image.colorChannels = 3 ∨ image.colorChannels = 4
      · simp only [if_pos hch, if_pos hcap]
        exact ⟨_, _, rfl⟩
      · simp only [if_neg hch]
        exact ⟨_, _, rfl⟩
  obtain ⟨b, s1, h⟩ := hex
  obtain ⟨hl, hcase⟩ := CreateGLTexture_outcome env filename tag s s1 b h
  refine ⟨b, s1, h, hl, ?_, ?_⟩
  · rcases hcase with ⟨_, hs, hn, _⟩ | ⟨_, hs, _, hn, _⟩
    · rw [hs, hn]; simp
    · rw [hs, hn]; simp
  · rcases hcase with ⟨_, hs, _, ht⟩ | ⟨_, hs, _, _, ht⟩
    · rw [hs, ht]; simp
    · rw [hs, ht]; simp

theorem BindGLTextures_loadedTags (s : SceneManager mat4) :
    loadedTags (BindGLTextures s) = loadedTags s ∧
      (BindGLTextures s).m_loadedTextures = s.m_loadedTextures := ⟨rfl, rfl⟩

/-- C14: from a table without loaded slots (the array at its size of 16), for every decode
outcome of the five files, `CreateSceneTextures` returns, and the loaded slots 0..k-1 hold
exactly the tags of the loads that succeeded, in the order "WoodFloor", "Aluminum",
"Pyramid", "Orange", "Dirt" with the failed ones left out; `k` is the number of successful
loads. -/
theorem CreateSceneTextures_registers_successes (env : Env) (s : SceneManager mat4)
    (h0 : s.m_loadedTextures = 0) (hlen : s.m_textureIDs.length = MAX_TEXTURES) :
    ∃ s1, CreateSceneTextures env s = .ok s1
      ∧ loadedTags s1
          = (sceneTextureFiles.filter (fun p => loadSucceeds env p.1)).map Prod.snd
      ∧ s1.m_loadedTextures
          = (sceneTextureFiles.filter (fun p => loadSucceeds env p.1)).length := by
  have hM : MAX_TEXTURES = 16 := rfl
  have ht0 : loadedTags s = [] := by simp [loadedTags, h0]
  obtain ⟨b1, s1, e1, l1, n1, t1⟩ :=
    CreateGLTexture_step env "textures/wood.jpg" "WoodFloor" s (by omega)
  have c1 : s1.m_loadedTextures ≤ 1 := by rw [n1, h0]; split <;> omega
  obtain ⟨b2, s2, e2, l2, n2, t2⟩ :=
    CreateGLTexture_step env "textures/aluminum.jpg" "Aluminum" s1 (by omega)
  have c2 : s2.m_loadedTextures ≤ 2 := by rw [n2]; split <;> omega
  obtain ⟨b3, s3, e3, l3, n3, t3⟩ :=
    CreateGLTexture_step env "textures/egyptian-bricks.jpg" "Pyramid" s2 (by omega)
  have c3 : s3.m_loadedTextures ≤ 3 := by rw [n3]; split <;> omega
  obtain ⟨b4, s4, e4, l4, n4, t4⟩ :=
    CreateGLTexture_step env "textures/orange.jpg" "Orange" s3 (by omega)
  have c4 : s4.m_loadedTextures ≤ 4 := by rw [n4]; split <;> omega
  obtain ⟨b5, s5, e5, l5, n5, t5⟩ :=
    CreateGLTexture_step env "textures/dirt.jpg" "Dirt" s4 (by omega)
  refine ⟨BindGLTextures s5, ?_, ?_, ?_⟩
  · unfold CreateSceneTextures
    simp only [bind, Except.bind, e1, e2, e3, e4, e5]
    rfl
  · rw [(BindGLTextures_loadedTags s5).1, t5, t4, t3, t2, t1, ht0]
    simp only [sceneTextureFiles, List.filter_cons, List.filter_nil]
    split_ifs <;> rfl
  · rw [(BindGLTextures_loadedTags s5).2, n5, n4, n3, n2, n1, h0]
    simp only [sceneTextureFiles, List.filter_cons, List.filter_nil]
    split_ifs <;> rfl

/-- C14 when only the wood and the orange image decode: two slots, "WoodFloor" then
"Orange". -/
theorem CreateSceneTextures_registers_successes_witness :
    ∃ s1, CreateSceneTextures (envOnly ["textures/wood.jpg", "textures/orange.jpg"])
        (fresh Unit) = .ok s1
      ∧ loadedTags s1 = ["WoodFloor", "Orange"] ∧ s1.m_loadedTextures = 2 :=
  CreateSceneTextures_registers_successes (envOnly ["textures/wood.jpg", "textures/orange.jpg"])
    (fresh Unit) rfl rfl

theorem RenderScene_drawsDetermined : drawsDetermined RenderScene.calls [] none = true := by
  decide

theorem RenderScene_drawnShapes :
    drawnShapes RenderScene.calls
      = [Shape.Plane, Shape.TaperedCylinder, Shape.Cylinder, Shape.TaperedCylinder,
         Shape.Cylinder, Shape.Box, Shape.Box, Shape.Prism, Shape.Prism, Shape.Sphere,
         Shape.Sphere, Shape.Torus, Shape.Cylinder, Shape.Box, Shape.Prism, Shape.Box,
         Shape.Cylinder] := by
  decide

theorem RenderScene_textureTags :
    textureTags RenderScene.calls
      = ["WoodFloor", "Aluminum", "Aluminum", "Aluminum", "Aluminum", "Dirt"] := by
  decide

theorem RenderScene_materialTags_defined :
    ∀ tag ∈ materialTags RenderScene.calls, ∃ m ∈ definedMaterials, m.tag = tag := by
  decide

theorem uniform_set (sh : ShaderManager mat4) (name n : String) (v : UniformValue mat4) :
    (sh.set name v).uniform n = if name = n then some v else sh.uniform n := by
  by_cases h : name = n
  · subst h
    rw [if_pos rfl]
    exact uniform_set_self sh name v
  · rw [if_neg h]
    exact uniform_set_ne sh name n v h

/-- The shader manager after the five writes of `SetShaderMaterial` for a record. -/
theorem SetShaderMaterial_found (env : Env) (m : OBJECT_MATERIAL) (s : SceneManager mat4)
    (sh : ShaderManager mat4) (hsh : s.m_pShaderManager = some sh)
    (hdistinct : (s.m_objectMaterials.map (fun e => e.tag)).Nodup)
    (hm : m ∈ s.m_objectMaterials) :
    SetShaderMaterial env m.tag s
      = .ok { s with m_pShaderManager := some (materialWrites m sh) } := by
  have hpos : s.m_objectMaterials.length > 0 := List.length_pos_of_mem hm
  have hne : ¬ s.m_objectMaterials.length = 0 := by omega
  have hfind : FindMaterial s m.tag { env.uninitMaterial with tag := "" }
      = (true, { m with tag := "" }) := by
    rw [FindMaterial, if_neg hne, FindMaterial_loop_hit m _ _ hdistinct hm]
  unfold SetShaderMaterial
  rw [if_pos hpos]
  simp only [hfind, if_true, hsh, ShaderManager.setVec3Value, ShaderManager.setFloatValue,
    materialWrites]

theorem SetTransformations_present (glm : GLM mat4) (scaleXYZ : vec3) (rx ry rz : float)
    (positionXYZ : vec3) (s : SceneManager mat4) (sh : ShaderManager mat4)
    (hsh : s.m_pShaderManager = some sh) :
    SetTransformations glm scaleXYZ rx ry rz positionXYZ s
      = { s with m_pShaderManager := some (sh.set g_ModelName (.mat4
          (glm.mul (glm.mul (glm.mul (glm.mul (glm.translate positionXYZ)
            (glm.rotate (glm.radians rx) ⟨1, 0, 0⟩)) (glm.rotate (glm.radians ry) ⟨0, 1, 0⟩))
            (glm.rotate (glm.radians rz) ⟨0, 0, 1⟩)) (glm.scale scaleXYZ)))) } := by
  simp only [SetTransformations, hsh, ShaderManager.setMat4Value]

theorem SetShaderColor_present (r g b a : float) (s : SceneManager mat4)
    (sh : ShaderManager mat4) (hsh : s.m_pShaderManager = some sh) :
    SetShaderColor r g b a s
      = { s with m_pShaderManager := some ((sh.set g_UseTextureName (.int 0)).set
          g_ColorValueName (.vec4 ⟨r, g, b, a⟩)) } := by
  simp only [SetShaderColor, hsh, ShaderManager.setIntValue, ShaderManager.setVec4Value]

theorem SetShaderTexture_present (textureTag : String) (s : SceneManager mat4)
    (sh : ShaderManager mat4) (hsh : s.m_pShaderManager = some sh) :
    SetShaderTexture textureTag s
      = { s with m_pShaderManager := some ((sh.set g_UseTextureName (.int 1)).set
          g_TextureValueName (.sampler2D (FindTextureSlot s textureTag))) } := by
  simp only [SetShaderTexture, hsh, ShaderManager.setIntValue, ShaderManager.setSampler2DValue]

theorem SetTextureUVScale_present (u v : float) (s : SceneManager mat4)
    (sh : ShaderManager mat4) (hsh : s.m_pShaderManager = some sh) :
    SetTextureUVScale u v s
      = { s with m_pShaderManager := some (sh.set "UVscale" (.vec2 ⟨u, v⟩)) } := by
  simp only [SetTextureUVScale, hsh, ShaderManager.setVec2Value]

theorem exec_present (glm : GLM mat4) (env : Env) (c : Call) (s : SceneManager mat4)
    (sh : ShaderManager mat4) (hsh : s.m_pShaderManager = some sh) :
    ∃ s1 sh1, exec glm env c s = .ok s1 ∧ s1.m_pShaderManager = some sh1 ∧ SameTables s s1 := by
  cases c with
  | SetTransformations sc rx ry rz p =>
    refine ⟨_, _, congrArg Except.ok (SetTransformations_present glm sc rx ry rz p s sh hsh),
      rfl, ⟨rfl, rfl, rfl⟩⟩
  | SetShaderColor r g b a =>
    refine ⟨_, _, congrArg Except.ok (SetShaderColor_present r g b a s sh hsh),
      rfl, ⟨rfl, rfl, rfl⟩⟩
  | SetShaderTexture tag =>
    refine ⟨_, _, congrArg Except.ok (SetShaderTexture_present tag s sh hsh),
      rfl, ⟨rfl, rfl, rfl⟩⟩
  | SetTextureUVScale u v =>
    refine ⟨_, _, congrArg Except.ok (SetTextureUVScale_present u v s sh hsh),
      rfl, ⟨rfl, rfl, rfl⟩⟩
  | SetShaderMaterial tag =>
    obtain ⟨sh1, h1, _⟩ := SetShaderMaterial_frame env tag s sh hsh
    exact ⟨_, sh1, h1, rfl, ⟨rfl, rfl, rfl⟩⟩
  | DrawMesh shape =>
    exact ⟨_, sh, rfl, hsh, ⟨rfl, rfl, rfl⟩⟩

theorem SameTables_trans {a b c : SceneManager mat4} (h1 : SameTables a b)
    (h2 : SameTables b c) : SameTables a c :=
  ⟨h1.1.trans h2.1, h1.2.1.trans h2.2.1, h1.2.2.trans h2.2.2⟩

theorem run_present (glm : GLM mat4) (env : Env) :
    ∀ (calls : List Call) (s : SceneManager mat4) (sh : ShaderManager mat4),
      s.m_pShaderManager = some sh →
      ∃ s1 sh1, run glm env calls s = .ok s1 ∧ s1.m_pShaderManager = some sh1 ∧ SameTables s s1
  | [], s, sh, hsh => ⟨s, sh, rfl, hsh, ⟨rfl, rfl, rfl⟩⟩
  | c :: cs, s, sh, hsh => by
    obtain ⟨s1, sh1, h1, hsh1, ht1⟩ := exec_present glm env c s sh hsh
    obtain ⟨s2, sh2, h2, hsh2, ht2⟩ := run_present glm env cs s1 sh1 hsh1
    refine ⟨s2, sh2, ?_, hsh2, SameTables_trans ht1 ht2⟩
    simp only [run, h1, h2]

theorem mem_textureTags :
    ∀ (calls : List Call) (tag : String), Call.SetShaderTexture tag ∈ calls →
      tag ∈ textureTags calls
  | [], _, h => by simp at h
  | c :: cs, tag, h => by
    rcases List.mem_cons.1 h with e | h2
    · subst e
      simp [textureTags]
    · have ih := mem_textureTags cs tag h2
      cases c <;> simp [textureTags, ih]

theorem mem_materialTags :
    ∀ (calls : List Call) (tag : String), Call.SetShaderMaterial tag ∈ calls →
      tag ∈ materialTags calls
  | [], _, h => by simp at h
  | c :: cs, tag, h => by
    rcases List.mem_cons.1 h with e | h2
    · subst e
      simp [materialTags]
    · have ih := mem_materialTags cs tag h2
      cases c <;> simp [materialTags, ih]

theorem definedMaterials_distinct : (definedMaterials.map (fun e => e.tag)).Nodup := by
  decide

theorem prepared_fresh_tables (env : Env) (s : SceneManager mat4) (sh : ShaderManager mat4)
    (hfresh : Fresh s) :
    (prepared env s sh).m_objectMaterials = definedMaterials
    ∧ (prepared env s sh).m_loadedTextures = 5
    ∧ ∃ h0 h1 h2 h3 h4 rest, (prepared env s sh).m_textureIDs
        = ⟨h0, "WoodFloor"⟩ :: ⟨h1, "Aluminum"⟩ :: ⟨h2, "Pyramid"⟩ :: ⟨h3, "Orange"⟩
          :: ⟨h4, "Dirt"⟩ :: rest := by
  obtain ⟨h0, hlen, hmat⟩ := hfresh
  refine ⟨?_, ?_, ?_⟩
  · rw [prepared_materials, hmat]; rfl
  · rw [prepared_loaded, h0]
  · obtain ⟨a0, a1, a2, a3, a4, rest, hids⟩ :=
      exists_five_of_length s.m_textureIDs (by rw [hlen]; decide)
    refine ⟨env.glGenTextures s.gl.genCount, env.glGenTextures (s.gl.genCount + 1),
      env.glGenTextures (s.gl.genCount + 2), env.glGenTextures (s.gl.genCount + 3),
      env.glGenTextures (s.gl.genCount + 4), rest, ?_⟩
    rw [prepared_slots, sceneTextures_slots]
    simp only [DefineObjectMaterials_slots, DefineObjectMaterials_loaded,
      DefineObjectMaterials_gl, h0, hids]
    rfl

/-- C15: after `PrepareScene` on a fresh manager with a shader manager and all five decodes
giving 3 or 4 channels, at every call of `RenderScene`, reached by running the calls before
it: a `SetShaderTexture` call finds its tag in a slot from 0 to 4, and a `SetShaderMaterial`
call has a tag under which `DefineObjectMaterials` defined a record, which is in the
material table, and writes the five material uniforms with the fields of that record. -/
theorem RenderScene_no_lookup_miss (glm : GLM mat4) (env envR : Env) (s : SceneManager mat4)
    (sh : ShaderManager mat4) (hfresh : Fresh s) (hsh : s.m_pShaderManager = some sh)
    (hd : AllDecode env) :
    ∃ s1, PrepareScene env s = .ok s1
      ∧ ∀ pre c post, RenderScene.calls = pre ++ c :: post →
        ∃ t, run glm envR pre s1 = .ok t
          ∧ (∀ tag, c = Call.SetShaderTexture tag →
              0 ≤ FindTextureSlot t tag ∧ FindTextureSlot t tag ≤ 4)
          ∧ (∀ tag, c = Call.SetShaderMaterial tag →
              ∃ m t1 sh1, m ∈ definedMaterials ∧ m.tag = tag ∧ m ∈ t.m_objectMaterials
                ∧ exec glm envR c t = .ok t1 ∧ t1.m_pShaderManager = some sh1
                ∧ sh1.uniform "material.ambientColor" = some (.vec3 m.ambientColor)
                ∧ sh1.uniform "material.ambientStrength" = some (.float m.ambientStrength)
                ∧ sh1.uniform "material.diffuseColor" = some (.vec3 m.diffuseColor)
                ∧ sh1.uniform "material.specularColor" = some (.vec3 m.specularColor)
                ∧ sh1.uniform "material.shininess" = some (.float m.shininess)) := by
  have hcap : s.m_loadedTextures + 5 ≤ s.m_textureIDs.length := by
    rw [hfresh.1, hfresh.2.1]; decide
  obtain ⟨hmats, hn, g0, g1, g2, g3, g4, rest, hids⟩ := prepared_fresh_tables env s sh hfresh
  refine ⟨prepared env s sh, PrepareScene_ok env s sh hsh hd hcap, ?_⟩
  intro pre c post hsplit
  obtain ⟨t, sht, hrun, hsht, htab⟩ :=
    run_present glm envR pre (prepared env s sh) _ (prepared_shader env s sh)
  have hc : c ∈ RenderScene.calls := by rw [hsplit]; simp
  refine ⟨t, hrun, ?_, ?_⟩
  · intro tag htag
    rw [htag] at hc
    have hmem := mem_textureTags _ _ hc
    rw [RenderScene_textureTags] at hmem
    unfold FindTextureSlot
    rw [← htab.1, ← htab.2.1, hn, hids]
    simp only [List.mem_cons, List.mem_singleton, List.not_mem_nil, or_false] at hmem
    rcases hmem with e | e | e | e | e | e <;> subst e <;>
      simp [FindTextureSlot.loop]
  · intro tag htag
    have hc2 := hc
    rw [htag] at hc2
    obtain ⟨m, hm, hmt⟩ := RenderScene_materialTags_defined tag (mem_materialTags _ _ hc2)
    have hmt2 : m ∈ t.m_objectMaterials := by rw [← htab.2.2, hmats]; exact hm
    have hnd : (t.m_objectMaterials.map (fun e => e.tag)).Nodup := by
      rw [← htab.2.2, hmats]; exact definedMaterials_distinct
    have hex := SetShaderMaterial_found envR m t sht hsht hnd hmt2
    rw [hmt] at hex
    refine ⟨m, { t with m_pShaderManager := some (materialWrites m sht) }, materialWrites m sht,
      hm, hmt, hmt2, ?_, rfl, ?_, ?_, ?_, ?_, ?_⟩ <;> try unfold materialWrites
    · rw [htag]
      exact hex
    · rw [uniform_set, if_neg (by decide), uniform_set, if_neg (by decide), uniform_set,
        if_neg (by decide), uniform_set, if_neg (by decide), uniform_set, if_pos rfl]
    · rw [uniform_set, if_neg (by decide), uniform_set, if_neg (by decide), uniform_set,
        if_neg (by decide), uniform_set, if_pos rfl]
    · rw [uniform_set, if_neg (by decide), uniform_set, if_neg (by decide), uniform_set,
        if_pos rfl]
    · rw [uniform_set, if_neg (by decide), uniform_set, if_pos rfl]
    · rw [uniform_set, if_pos rfl]

theorem texturing_set_ne (sh : ShaderManager mat4) (name : String) (v : UniformValue mat4)
    (h : name ≠ g_UseTextureName) : (sh.set name v).texturing = sh.texturing := by
  unfold ShaderManager.texturing
  rw [uniform_set_ne sh name g_UseTextureName v h]

theorem texturing_set_int (sh : ShaderManager mat4) (v : Int) :
    (sh.set g_UseTextureName (.int v)).texturing = decide (v ≠ 0) := by
  unfold ShaderManager.texturing
  rw [uniform_set_self]

theorem agree_set {names : List String} {flag : Option Bool} {a b : ShaderManager mat4}
    (h : Agree names flag a b) (name : String) (v : UniformValue mat4)
    (hne : name ≠ g_UseTextureName) :
    Agree (name :: names) flag (a.set name v) (b.set name v) := by
  refine ⟨?_, ?_⟩
  · intro n hn
    rw [uniform_set, uniform_set]
    by_cases e : name = n
    · rw [if_pos e, if_pos e]
    · rw [if_neg e, if_neg e]
      rcases List.mem_cons.1 hn with e2 | hn2
      · exact absurd e2.symm e
      · exact h.1 n hn2
  · intro t ht
    rw [texturing_set_ne a name v hne, texturing_set_ne b name v hne]
    exact h.2 t ht

theorem agree_set_flag {names : List String} {flag : Option Bool} {a b : ShaderManager mat4}
    (h : Agree names flag a b) (v : Int) :
    Agree (g_UseTextureName :: names) (some (decide (v ≠ 0)))
      (a.set g_UseTextureName (.int v)) (b.set g_UseTextureName (.int v)) := by
  refine ⟨?_, ?_⟩
  · intro n hn
    rw [uniform_set, uniform_set]
    by_cases e : g_UseTextureName = n
    · rw [if_pos e, if_pos e]
    · rw [if_neg e, if_neg e]
      rcases List.mem_cons.1 hn with e2 | hn2
      · exact absurd e2.symm e
      · exact h.1 n hn2
  · intro t ht
    rw [texturing_set_int, texturing_set_int]
    have e : decide (v ≠ 0) = t := Option.some.inj ht
    exact ⟨e, e⟩

theorem agree_read {names : List String} {flag : Option Bool} {a b : ShaderManager mat4}
    (h : Agree names flag a b) (hc : readsCovered names flag = true) :
    readAtDraw a = readAtDraw b := by
  cases flag with
  | none => simp [readsCovered] at hc
  | some t =>
    obtain ⟨ta, tb⟩ := h.2 t rfl
    cases t with
    | true =>
      simp only [readsCovered, Bool.and_eq_true, decide_eq_true_eq] at hc
      obtain ⟨⟨⟨⟨h1, h2⟩, h3⟩, h4⟩, h5⟩ := hc
      unfold readAtDraw
      rw [ta, tb, h.1 _ h1, h.1 _ h2, h.1 _ h4, h.1 _ h5,
        List.map_congr_left (fun n hn => h.1 n (h3 n hn))]
      simp only [if_true]
    | false =>
      simp only [readsCovered, Bool.and_eq_true, decide_eq_true_eq] at hc
      obtain ⟨⟨⟨h1, h2⟩, h3⟩, h4⟩ := hc
      unfold readAtDraw
      rw [ta, tb, h.1 _ h1, h.1 _ h2, h.1 _ h4,
        List.map_congr_left (fun n hn => h.1 n (h3 n hn))]
      simp only [Bool.false_eq_true, if_false]

theorem agree_materialWrites {names : List String} {flag : Option Bool}
    {a b : ShaderManager mat4} (h : Agree names flag a b) (m : OBJECT_MATERIAL) :
    Agree (materialUniforms.reverse ++ names) flag (materialWrites m a) (materialWrites m b) := by
  unfold materialWrites
  exact agree_set (agree_set (agree_set (agree_set (agree_set h _ _ (by decide)) _ _
    (by decide)) _ _ (by decide)) _ _ (by decide)) _ _ (by decide)

theorem exec_agree (glm : GLM mat4) (envA envB : Env) (c : Call) (a b : SceneManager mat4)
    (sha shb : ShaderManager mat4) (names : List String) (flag : Option Bool)
    (ha : a.m_pShaderManager = some sha) (hb : b.m_pShaderManager = some shb)
    (htab : SameTables a b) (hagree : Agree names flag sha shb)
    (hdistinct : (a.m_objectMaterials.map (fun e => e.tag)).Nodup)
    (hfound : ∀ tag, c = Call.SetShaderMaterial tag → ∃ m ∈ a.m_objectMaterials, m.tag = tag) :
    ∃ a1 b1 sha1 shb1, exec glm envA c a = .ok a1 ∧ exec glm envB c b = .ok b1
      ∧ a1.m_pShaderManager = some sha1 ∧ b1.m_pShaderManager = some shb1
      ∧ SameTables a1 b1 ∧ a1.m_objectMaterials = a.m_objectMaterials
      ∧ Agree (callWrites c ++ names) (flagAfter c flag) sha1 shb1 := by
  cases c with
  | SetTransformations sc rx ry rz p =>
    exact ⟨_, _, _, _, congrArg Except.ok (SetTransformations_present glm sc rx ry rz p a sha ha),
      congrArg Except.ok (SetTransformations_present glm sc rx ry rz p b shb hb), rfl, rfl,
      htab, rfl, agree_set hagree _ _ (by decide)⟩
  | SetShaderColor r g bl al =>
    exact ⟨_, _, _, _, congrArg Except.ok (SetShaderColor_present r g bl al a sha ha),
      congrArg Except.ok (SetShaderColor_present r g bl al b shb hb), rfl, rfl,
      htab, rfl, agree_set (agree_set_flag hagree 0) _ _ (by decide)⟩
  | SetShaderTexture tag =>
    have hslot : FindTextureSlot b tag = FindTextureSlot a tag := by
      unfold FindTextureSlot
      rw [htab.1, htab.2.1]
    have hB := SetShaderTexture_present tag b shb hb
    rw [hslot] at hB
    exact ⟨_, _, _, _, congrArg Except.ok (SetShaderTexture_present tag a sha ha),
      congrArg Except.ok hB, rfl, rfl, htab, rfl,
      agree_set (agree_set_flag hagree 1) _ _ (by decide)⟩
  | SetTextureUVScale u v =>
    exact ⟨_, _, _, _, congrArg Except.ok (SetTextureUVScale_present u v a sha ha),
      congrArg Except.ok (SetTextureUVScale_present u v b shb hb), rfl, rfl,
      htab, rfl, agree_set hagree _ _ (by decide)⟩
  | SetShaderMaterial tag =>
    obtain ⟨m, hm, hmt⟩ := hfound tag rfl
    have hA := SetShaderMaterial_found envA m a sha ha hdistinct hm
    have hB := SetShaderMaterial_found envB m b shb hb (by rw [← htab.2.2]; exact hdistinct)
      (by rw [← htab.2.2]; exact hm)
    rw [hmt] at hA hB
    exact ⟨_, _, _, _, hA, hB, rfl, rfl, htab, rfl, agree_materialWrites hagree m⟩
  | DrawMesh shape =>
    exact ⟨_, _, sha, shb, rfl, rfl, ha, hb, htab, rfl, hagree⟩

theorem drawsDetermined_cons (c : Call) (cs : List Call) (names : List String)
    (flag : Option Bool) (h : drawsDetermined (c :: cs) names flag = true) :
    drawsDetermined cs (callWrites c ++ names) (flagAfter c flag) = true
    ∧ ∀ shape, c = Call.DrawMesh shape → readsCovered names flag = true := by
  cases c <;> simp_all [drawsDetermined, callWrites, flagAfter]

theorem drawReads_agree (glm : GLM mat4) (envA envB : Env) :
    ∀ (calls : List Call) (names : List String) (flag : Option Bool) (a b : SceneManager mat4)
      (sha shb : ShaderManager mat4),
      a.m_pShaderManager = some sha → b.m_pShaderManager = some shb → SameTables a b →
      Agree names flag sha shb → (a.m_objectMaterials.map (fun e => e.tag)).Nodup →
      (∀ tag ∈ materialTags calls, ∃ m ∈ a.m_objectMaterials, m.tag = tag) →
      drawsDetermined calls names flag = true →
      ∃ log, drawReads glm envA calls a = .ok log ∧ drawReads glm envB calls b = .ok log
        ∧ ∀ r ∈ log, r.2.isSome = true
  | [], _, _, _, _, _, _, _, _, _, _, _, _, _ => ⟨[], rfl, rfl, by simp⟩
  | c :: cs, names, flag, a, b, sha, shb, ha, hb, htab, hagree, hdistinct, hfound, hdet => by
    obtain ⟨hdet1, hdraw⟩ := drawsDetermined_cons c cs names flag hdet
    have hfound0 : ∀ tag, c = Call.SetShaderMaterial tag →
        ∃ m ∈ a.m_objectMaterials, m.tag = tag := by
      intro tag e
      apply hfound
      rw [e]
      simp [materialTags]
    obtain ⟨a1, b1, sha1, shb1, ea, eb, ha1, hb1, htab1, hmat1, hagree1⟩ :=
      exec_agree glm envA envB c a b sha shb names flag ha hb htab hagree hdistinct hfound0
    have hfound1 : ∀ tag ∈ materialTags cs, ∃ m ∈ a1.m_objectMaterials, m.tag = tag := by
      intro tag htag
      rw [hmat1]
      apply hfound
      cases c <;> simp [materialTags, htag]
    obtain ⟨log, la, lb, lsome⟩ := drawReads_agree glm envA envB cs _ _ a1 b1 sha1 shb1 ha1 hb1
      htab1 hagree1 (by rw [hmat1]; exact hdistinct) hfound1 hdet1
    cases c with
    | DrawMesh shape =>
      have hread : readAtDraw sha1 = readAtDraw shb1 :=
        agree_read hagree1 (hdraw shape rfl)
      refine ⟨(shape, some (readAtDraw sha1)) :: log, ?_, ?_, ?_⟩
      · simp only [drawReads, ea, la, ha1, Option.map_some']
      · simp only [drawReads, eb, lb, hb1, Option.map_some', hread]
      · intro r hr
        rcases List.mem_cons.1 hr with e | hr2
        · rw [e]; rfl
        · exact lsome r hr2
    | SetTransformations sc rx ry rz p =>
      exact ⟨log, by simp only [drawReads, ea, la], by simp only [drawReads, eb, lb], lsome⟩
    | SetShaderColor r g bl al =>
      exact ⟨log, by simp only [drawReads, ea, la], by simp only [drawReads, eb, lb], lsome⟩
    | SetShaderTexture tag =>
      exact ⟨log, by simp only [drawReads, ea, la], by simp only [drawReads, eb, lb], lsome⟩
    | SetTextureUVScale u v =>
      exact ⟨log, by simp only [drawReads, ea, la], by simp only [drawReads, eb, lb], lsome⟩
    | SetShaderMaterial tag =>
      exact ⟨log, by simp only [drawReads, ea, la], by simp only [drawReads, eb, lb], lsome⟩

theorem exec_drawn (glm : GLM mat4) (env : Env) (c : Call) (s s1 : SceneManager mat4)
    (sh : ShaderManager mat4) (hsh : s.m_pShaderManager = some sh)
    (h : exec glm env c s = .ok s1) :
    s1.m_basicMeshes.drawn = s.m_basicMeshes.drawn ++ drawnShapes [c] := by
  cases c with
  | SetTransformations sc rx ry rz p =>
    rw [exec, SetTransformations_present glm sc rx ry rz p s sh hsh] at h
    cases h
    simp [drawnShapes]
  | SetShaderColor r g b a =>
    rw [exec, SetShaderColor_present r g b a s sh hsh] at h
    cases h
    simp [drawnShapes]
  | SetShaderTexture tag =>
    rw [exec, SetShaderTexture_present tag s sh hsh] at h
    cases h
    simp [drawnShapes]
  | SetTextureUVScale u v =>
    rw [exec, SetTextureUVScale_present u v s sh hsh] at h
    cases h
    simp [drawnShapes]
  | SetShaderMaterial tag =>
    obtain ⟨sh1, h1, _⟩ := SetShaderMaterial_frame env tag s sh hsh
    rw [exec, h1] at h
    cases h
    simp [drawnShapes]
  | DrawMesh shape =>
    rw [exec] at h
    cases h
    simp [drawnShapes, DrawMesh]

theorem drawReads_run (glm : GLM mat4) (env : Env) :
    ∀ (calls : List Call) (s : SceneManager mat4) (sh : ShaderManager mat4)
      (log : List (Shape × Option (DrawRead mat4))),
      s.m_pShaderManager = some sh → drawReads glm env calls s = .ok log →
      log.map Prod.fst = drawnShapes calls
      ∧ ∃ t, run glm env calls s = .ok t
          ∧ t.m_basicMeshes.drawn = s.m_basicMeshes.drawn ++ drawnShapes calls
  | [], s, _, log, _, h => by
    simp only [drawReads, Except.ok.injEq] at h
    subst h
    exact ⟨rfl, s, rfl, by simp [drawnShapes]⟩
  | c :: cs, s, sh, log, hsh, h => by
    obtain ⟨s1, sh1, e1, hsh1, _⟩ := exec_present glm env c s sh hsh
    have hd1 := exec_drawn glm env c s s1 sh hsh e1
    simp only [drawReads, e1] at h
    cases hrest : drawReads glm env cs s1 with
    | error e =>
      rw [hrest] at h
      cases h
    | ok log1 =>
      rw [hrest] at h
      obtain ⟨hshape, t, hrun, hdrawn⟩ := drawReads_run glm env cs s1 sh1 log1 hsh1 hrest
      have hsplit : drawnShapes (c :: cs) = drawnShapes [c] ++ drawnShapes cs := by
        cases c <;> simp [drawnShapes]
      refine ⟨?_, t, by simp only [run, e1, hrun], ?_⟩
      · rw [hsplit]
        cases c <;> simp only [Except.ok.injEq] at h <;> subst h <;>
          simp [drawnShapes, hshape]
      · rw [hdrawn, hd1, hsplit, List.append_assoc]

/-- C13: the tables are those left by `PrepareScene` on a fresh manager with all five decodes
giving 3 or 4 channels.  For any two shader managers at the start (and any contents of
uninitialised locals), `RenderScene` returns in both runs, issues the same 17 draws in the
order floor, coffee maker, oranges, mug, carton, and every draw reads the same state in both
runs: model matrix, texturing flag, the five material uniforms, and the texture slot and UV
scale when texturing is enabled or the flat color when it is disabled. -/
theorem RenderScene_reads_independent_of_initial_uniforms (glm : GLM mat4)
    (env envA envB : Env) (s : SceneManager mat4) (sh shA shB : ShaderManager mat4)
    (hfresh : Fresh s) (hsh : s.m_pShaderManager = some sh) (hd : AllDecode env) :
    ∃ s1 log tA tB, PrepareScene env s = .ok s1
      ∧ drawReads glm envA RenderScene.calls { s1 with m_pShaderManager := some shA } = .ok log
      ∧ drawReads glm envB RenderScene.calls { s1 with m_pShaderManager := some shB } = .ok log
      ∧ log.map Prod.fst
          = [Shape.Plane, Shape.TaperedCylinder, Shape.Cylinder, Shape.TaperedCylinder,
             Shape.Cylinder, Shape.Box, Shape.Box, Shape.Prism, Shape.Prism, Shape.Sphere,
             Shape.Sphere, Shape.Torus, Shape.Cylinder, Shape.Box, Shape.Prism, Shape.Box,
             Shape.Cylinder]
      ∧ log.length = 17
      ∧ (∀ r ∈ log, r.2.isSome = true)
      ∧ RenderScene glm envA { s1 with m_pShaderManager := some shA } = .ok tA
      ∧ RenderScene glm envB { s1 with m_pShaderManager := some shB } = .ok tB
      ∧ tA.m_basicMeshes.drawn = s1.m_basicMeshes.drawn ++ log.map Prod.fst
      ∧ tB.m_basicMeshes.drawn = s1.m_basicMeshes.drawn ++ log.map Prod.fst := by
  have hcap : s.m_loadedTextures + 5 ≤ s.m_textureIDs.length := by
    rw [hfresh.1, hfresh.2.1]; decide
  obtain ⟨hmats, _, _⟩ := prepared_fresh_tables env s sh hfresh
  have hfound : ∀ tag ∈ materialTags RenderScene.calls,
      ∃ m ∈ (prepared env s sh).m_objectMaterials, m.tag = tag := by
    rw [hmats]
    exact RenderScene_materialTags_defined
  have hnd : ((prepared env s sh).m_objectMaterials.map (fun e => e.tag)).Nodup := by
    rw [hmats]
    exact definedMaterials_distinct
  obtain ⟨log, la, lb, lsome⟩ := drawReads_agree glm envA envB RenderScene.calls [] none
    { prepared env s sh with m_pShaderManager := some shA }
    { prepared env s sh with m_pShaderManager := some shB } shA shB rfl rfl ⟨rfl, rfl, rfl⟩
    ⟨by simp, by simp⟩ hnd hfound RenderScene_drawsDetermined
  obtain ⟨hshapeA, tA, hrunA, hdrawnA⟩ := drawReads_run glm envA RenderScene.calls _ shA log rfl la
  obtain ⟨_, tB, hrunB, hdrawnB⟩ := drawReads_run glm envB RenderScene.calls _ shB log rfl lb
  have hshapes := hshapeA
  rw [RenderScene_drawnShapes] at hshapes
  refine ⟨prepared env s sh, log, tA, tB, PrepareScene_ok env s sh hsh hd hcap, la, lb, hshapes,
    ?_, lsome, hrunA, hrunB, ?_, ?_⟩
  · have := congrArg List.length hshapes
    simpa using this
  · rw [hdrawnA, hshapeA]
  · rw [hdrawnB, hshapeA]

/-- C13 on the fresh manager with symbolic matrices: one run starts from a shader manager
without writes, the other from one that holds stale values. -/
theorem RenderScene_reads_independent_of_initial_uniforms_witness :
    ∃ s1 log, PrepareScene (envChannels 3) (fresh MatExpr) = .ok s1
      ∧ drawReads MatExpr.glm (envChannels 3) RenderScene.calls
          { s1 with m_pShaderManager := some { writes := [] } } = .ok log
      ∧ drawReads MatExpr.glm (envChannels 4) RenderScene.calls
          { s1 with m_pShaderManager := some (staleShader MatExpr) } = .ok log
      ∧ log.length = 17 := by
  obtain ⟨s1, log, _, _, h1, h2, h3, _, h5, _⟩ :=
    RenderScene_reads_independent_of_initial_uniforms MatExpr.glm (envChannels 3)
      (envChannels 3) (envChannels 4) (fresh MatExpr) { writes := [] } { writes := [] }
      (staleShader MatExpr) (by decide) rfl (envChannels_allDecode 3 (Or.inl rfl))
  exact ⟨s1, log, h1, h2, h3, h5⟩

/-- C15 on the fresh manager with symbolic matrices, at the second and the fourth call of
`RenderScene`: `SetShaderTexture("WoodFloor")` and `SetShaderMaterial("floor")`. -/
theorem RenderScene_no_lookup_miss_witness :
    ∃ s1, PrepareScene (envChannels 3) (fresh MatExpr) = .ok s1
      ∧ (∃ t, run MatExpr.glm (envChannels 3) (RenderScene.calls.take 1) s1 = .ok t
          ∧ 0 ≤ FindTextureSlot t "WoodFloor" ∧ FindTextureSlot t "WoodFloor" ≤ 4)
      ∧ (∃ t, run MatExpr.glm (envChannels 3) (RenderScene.calls.take 3) s1 = .ok t
          ∧ ∃ m, m ∈ definedMaterials ∧ m.tag = "floor" ∧ m ∈ t.m_objectMaterials) := by
  obtain ⟨s1, h1, h2⟩ := RenderScene_no_lookup_miss MatExpr.glm (envChannels 3) (envChannels 3)
    (fresh MatExpr) { writes := [] } (by decide) rfl (envChannels_allDecode 3 (Or.inl rfl))
  refine ⟨s1, h1, ?_, ?_⟩
  · obtain ⟨t, hrun, htex, _⟩ := h2 (RenderScene.calls.take 1)
      (Call.SetShaderTexture "WoodFloor") (RenderScene.calls.drop 2) rfl
    exact ⟨t, hrun, htex "WoodFloor" rfl⟩
  · obtain ⟨t, hrun, _, hmat⟩ := h2 (RenderScene.calls.take 3)
      (Call.SetShaderMaterial "floor") (RenderScene.calls.drop 4) rfl
    obtain ⟨m, _, _, hm1, hm2, hm3, _⟩ := hmat "floor" rfl
    exact ⟨t, hrun, m, hm1, hm2, hm3⟩

end SceneManager
